import Mathlib

/-
Verification of the structural analyzer + login/OTP controller + test-case
synthesis engine of `smart_test_engine.py` (class `SmartTestEngine`).

The Python code is shallowly embedded as pure Lean functions.  Live-page
effects (Playwright locators, navigation, the result of an actual login
attempt) are made explicit as oracle parameters:
  - the value a locator's `input_value()` returns at the i-th poll becomes a
    function `Nat → String`;
  - whether a `page.goto(url)` call succeeds becomes a function
    `String → Bool`;
  - the boolean result of the live `perform_login` call used by
    `generate_positive_test_cases` becomes an explicit `login_success : Bool`
    argument.
Everything else (string munging, classification, test-case synthesis) is a
direct translation of the source, statement by statement.
-/

set_option maxRecDepth 16384

namespace STE

/-! Python string primitives used by the engine, modelled over `String.data`
(`List Char`).  All operate on ASCII data, which is what the engine's own
regexes (`[^a-zA-Z0-9]`, `_+`) and keyword tables handle. -/

/-- Whitespace characters stripped by Python `str.strip()` (ASCII subset). -/
def pyIsWs (c : Char) : Bool :=
  c = ' ' || c = '\t' || c = '\n' || c = '\r' || c = '\x0b' || c = '\x0c'

/-- Drop characters satisfying `p` from both ends of a list. -/
def pyStripList (p : Char → Bool) (l : List Char) : List Char :=
  ((l.dropWhile p).reverse.dropWhile p).reverse

/-- Python `str.strip()` (no argument): strip whitespace from both ends. -/
def pyStrip (s : String) : String := ⟨pyStripList pyIsWs s.data⟩

/-- Python `str.strip('_')`. -/
def pyStripUnd (l : List Char) : List Char := pyStripList (· = '_') l

/-- Python `str.lower()`. -/
def pyLower (s : String) : String := ⟨s.data.map Char.toLower⟩

/-- Bool-valued prefix test on character lists. -/
def listIsPrefixOf : List Char → List Char → Bool
  | [], _ => true
  | _ :: _, [] => false
  | a :: as, b :: bs => a = b && listIsPrefixOf as bs

/-- Bool-valued contiguous-sublist test on character lists. -/
def listContainsSub (needle : List Char) : List Char → Bool
  | [] => needle.isEmpty
  | b :: bs => listIsPrefixOf needle (b :: bs) || listContainsSub needle bs

/-- Python `needle in hay` for strings (substring containment). -/
def pyIn (needle hay : String) : Bool := listContainsSub needle.data hay.data

/-- Python `str.replace(old, new)` for single-character patterns. -/
def pyReplaceChar (old new : Char) (s : String) : String :=
  ⟨s.data.map (fun c => if c = old then new else c)⟩

/-- Python slicing `s[:n]`. -/
def pyTake (n : Nat) (s : String) : String := ⟨s.data.take n⟩

/-- Python `a or b` for strings (`""` is falsy). -/
def pyOrS (a b : String) : String := if a = "" then b else a

/-- Python `a or b` where `a` is an optional string (`None` and `""` falsy). -/
def pyOrO (a : Option String) (b : String) : String :=
  match a with
  | some s => if s = "" then b else s
  | none => b

/-- Python f-string `str(x)` of an optional string: `None` renders as "None".
Used where the source formats a possibly-absent attribute directly. -/
def pyShowOpt (a : Option String) : String :=
  match a with
  | some s => s
  | none => "None"

/-- Python format spec `{n:03d}` for the small indices the engine uses. -/
def pad3 (n : Nat) : String :=
  if n < 10 then "00" ++ toString n
  else if n < 100 then "0" ++ toString n
  else toString n

/-- A character is an ASCII alphanumeric (the regex class `[a-zA-Z0-9]`). -/
def isAsciiAlnum (c : Char) : Bool := c.isAlpha || c.isDigit

/-- Python `str.upper()` on one character, restricted to the ASCII range.
In `_sanitize_identifier` upper-casing runs after every character outside
`[a-zA-Z0-9]` has been replaced by `_`, so only `'a'-'z'` can change. -/
def pyToUpperChar (c : Char) : Char :=
  if c = 'a' then 'A' else if c = 'b' then 'B' else if c = 'c' then 'C'
  else if c = 'd' then 'D' else if c = 'e' then 'E' else if c = 'f' then 'F'
  else if c = 'g' then 'G' else if c = 'h' then 'H' else if c = 'i' then 'I'
  else if c = 'j' then 'J' else if c = 'k' then 'K' else if c = 'l' then 'L'
  else if c = 'm' then 'M' else if c = 'n' then 'N' else if c = 'o' then 'O'
  else if c = 'p' then 'P' else if c = 'q' then 'Q' else if c = 'r' then 'R'
  else if c = 's' then 'S' else if c = 't' then 'T' else if c = 'u' then 'U'
  else if c = 'v' then 'V' else if c = 'w' then 'W' else if c = 'x' then 'X'
  else if c = 'y' then 'Y' else if c = 'z' then 'Z' else c

/-- The lowercase ASCII letters (the only characters `pyToUpperChar`
changes). -/
def lowerAscii : List Char :=
  ['a', 'b', 'c', 'd', 'e', 'f', 'g', 'h', 'i', 'j', 'k', 'l', 'm',
   'n', 'o', 'p', 'q', 'r', 's', 't', 'u', 'v', 'w', 'x', 'y', 'z']

/-- Python `str.title()` on the single-word, lowercase module keys of the
engine's keyword table (equals capitalisation of the first letter). -/
def pyTitleWord (s : String) : String :=
  match s.data with
  | [] => ""
  | c :: rest => ⟨pyToUpperChar c :: rest⟩

/-- The regex substitution `re.sub(r'[^a-zA-Z0-9]', '_', ·)`. -/
def pySubNonAlnumToUnd (l : List Char) : List Char :=
  l.map (fun c => if isAsciiAlnum c then c else '_')

/-- The regex substitution `re.sub(r'_+', '_', ·)`: collapse runs of
underscores to a single underscore. -/
def collapseUnd : List Char → List Char
  | [] => []
  | [c] => [c]
  | c1 :: c2 :: rest =>
    if c1 = '_' && c2 = '_' then collapseUnd (c2 :: rest)
    else c1 :: collapseUnd (c2 :: rest)

/-- `SmartTestEngine._sanitize_identifier` (lines 1861-1872; the earlier
definition at lines 1716-1720 is shadowed by this one, Python keeping the
last method of the class body): strip whitespace, replace every character
outside `[a-zA-Z0-9]` by `_`, collapse runs of `_`, strip `_` from both
ends, upper-case, truncate to 30 characters; `"UNKNOWN"` when the input is
empty or collapses to nothing. -/
def sanitize_identifier (text : String) : String :=
  if text = "" then "UNKNOWN"
  else if pyStripUnd (collapseUnd (pySubNonAlnumToUnd
      (pyStripList pyIsWs text.data))) = [] then "UNKNOWN"
  else ⟨((pyStripUnd (collapseUnd (pySubNonAlnumToUnd
      (pyStripList pyIsWs text.data)))).map pyToUpperChar).take 30⟩

/-! Login outcome heuristic (`perform_login`, lines 972-987). -/

/-- The fixed success-keyword scan of the heuristic (spec wording):
the lowered page body contains dashboard/welcome/home. -/
def hasSuccessKeyword (page_source : String) : Bool :=
  pyIn "dashboard" page_source || pyIn "welcome" page_source ||
    pyIn "home" page_source

/-- The fixed failure-keyword scan of the heuristic (spec wording):
the lowered page body contains error/invalid/incorrect/failed. -/
def hasFailureKeyword (page_source : String) : Bool :=
  pyIn "error" page_source || pyIn "invalid" page_source ||
    pyIn "incorrect" page_source || pyIn "failed" page_source

/-- `perform_login` lines 972-987: `current_url` is `page.url` after the
submit, `website_url` the engine's configured target, `page_content` the
raw `page.content()` (lowered by the code before scanning). -/
def perform_login_outcome (current_url website_url page_content : String) :
    Bool :=
  let page_source := pyLower page_content
  if current_url ≠ website_url || pyIn "dashboard" page_source ||
      pyIn "welcome" page_source || pyIn "home" page_source then
    true
  else if pyIn "error" page_source || pyIn "invalid" page_source ||
      pyIn "incorrect" page_source || pyIn "failed" page_source then
    false
  else
    true

/-! OTP manual wait (`perform_login`, lines 903-943).  The locator's
`input_value()` at the i-th loop iteration is the oracle `provider i`. -/

/-- Line 925: `if value and len(value.strip()) >= 4`. -/
def otpValueReady (v : String) : Bool :=
  v ≠ "" && decide (4 ≤ (pyStripList pyIsWs v.data).length)

/-- The `while waited < max_wait` loop of lines 920-931, with `fuel`
iterations remaining (invariant `fuel = 60 - waited`, established by the
initial call `otpWaitAux provider 0 60`).  Returns the final `waited`
counter and whether the loop exited through the `break`. -/
def otpWaitAux (provider : Nat → String) : Nat → Nat → Nat × Bool
  | waited, 0 => (waited, false)
  | waited, fuel + 1 =>
    if waited < 60 then
      if otpValueReady (provider waited) then (waited, true)
      else otpWaitAux provider (waited + 1) fuel
    else (waited, false)

/-- Outcome of the manual-OTP branch: final poll counter, whether a
ready value was seen, and how often the verify button was clicked
resp. Enter was pressed in the OTP field (lines 933-941). -/
structure OtpManualOutcome where
  waited : Nat
  found : Bool
  verify_clicks : Nat
  enter_presses : Nat
deriving DecidableEq

/-- Lines 917-941 with a resolvable OTP locator: run the wait loop, then
click the verify/submit button when one exists, otherwise press Enter in
the OTP field.  Note that the click/press happens on BOTH exits of the
loop, the `break` and the timeout. -/
def otpManualWait (provider : Nat → String) (verify_btn_exists : Bool) :
    OtpManualOutcome :=
  let r := otpWaitAux provider 0 60
  if verify_btn_exists then
    { waited := r.1, found := r.2, verify_clicks := 1, enter_presses := 0 }
  else
    { waited := r.1, found := r.2, verify_clicks := 0, enter_presses := 1 }

/-- Number of times a submit-like action (verify click or Enter press) was
issued during the manual-OTP branch. -/
def OtpManualOutcome.submitActions (o : OtpManualOutcome) : Nat :=
  o.verify_clicks + o.enter_presses

/-- `perform_login` on the manual-OTP path (wait_for_otp true, OTP field
detected, locator resolvable): the OTP wait/submit runs, then control falls
through to the outcome heuristic of lines 972-987, whose verdict is the
return value. -/
def perform_login_manual_otp (provider : Nat → String)
    (verify_btn_exists : Bool)
    (post_url website_url page_content : String) :
    Bool × OtpManualOutcome :=
  (perform_login_outcome post_url website_url page_content,
    otpManualWait provider verify_btn_exists)

/-! ERP table classification (`_classify_erp_table`, lines 647-666). -/

/-- Python `" ".join(...)`. -/
def pyJoinSpace : List String → String
  | [] => ""
  | [s] => s
  | s :: rest => s ++ " " ++ pyJoinSpace rest

/-- `_classify_erp_table`: join the lowered headers with spaces and walk the
if/elif keyword chain of lines 651-666. -/
def classify_erp_table (headers : List String) : String :=
  let headers_text := pyJoinSpace (headers.map pyLower)
  if ["student", "name", "roll", "admission"].any (fun kw => pyIn kw headers_text) then
    "student_list"
  else if ["fee", "payment", "amount", "balance"].any (fun kw => pyIn kw headers_text) then
    "fee_record"
  else if ["attendance", "present", "absent"].any (fun kw => pyIn kw headers_text) then
    "attendance"
  else if ["exam", "test", "marks", "grade"].any (fun kw => pyIn kw headers_text) then
    "examination"
  else if ["teacher", "staff", "faculty"].any (fun kw => pyIn kw headers_text) then
    "teacher_list"
  else if ["book", "library", "issue", "return"].any (fun kw => pyIn kw headers_text) then
    "library"
  else if ["bus", "transport", "route"].any (fun kw => pyIn kw headers_text) then
    "transport"
  else
    "generic"

/-- The spec's view of table classification: an explicit ordered rule table,
first match wins, default `generic`. -/
def erp_table_rules : List (String × List String) :=
  [("student_list", ["student", "name", "roll", "admission"]),
   ("fee_record", ["fee", "payment", "amount", "balance"]),
   ("attendance", ["attendance", "present", "absent"]),
   ("examination", ["exam", "test", "marks", "grade"]),
   ("teacher_list", ["teacher", "staff", "faculty"]),
   ("library", ["book", "library", "issue", "return"]),
   ("transport", ["bus", "transport", "route"])]

/-- First-match-wins evaluation of an ordered rule table against the joined
header text. -/
def firstMatchRule : List (String × List String) → String → String
  | [], _ => "generic"
  | (name, kws) :: rest, t =>
    if kws.any (fun kw => pyIn kw t) then name else firstMatchRule rest t

/-- Spec-side table classifier (ordered rules, first match wins). -/
def classify_erp_table_spec (headers : List String) : String :=
  firstMatchRule erp_table_rules (pyJoinSpace (headers.map pyLower))

/-! ERP module detection (`detect_erp_modules`, lines 292-364). -/

/-- A navigation link as collected by lines 320-337: `text` is already
lowercased and stripped (line 326) and non-trivial (`len(text) > 1`). -/
structure NavLink where
  text : String
  href : String
  id : String
deriving DecidableEq

/-- A detected ERP module record (`{name, links, count}`). -/
structure ErpModule where
  name : String
  links : List NavLink
  count : Nat
deriving DecidableEq

/-- The fixed `erp_module_keywords` table of lines 295-306, in source
order. -/
def erp_module_keywords : List (String × List String) :=
  [("student", ["student", "admission", "enrollment", "pupil", "learner"]),
   ("teacher", ["teacher", "faculty", "staff", "instructor"]),
   ("academic", ["course", "subject", "class", "section", "syllabus", "curriculum"]),
   ("attendance", ["attendance", "present", "absent", "leave"]),
   ("examination", ["exam", "test", "assessment", "result", "grade", "marks"]),
   ("finance", ["fee", "payment", "expense", "financial", "billing", "invoice"]),
   ("library", ["library", "book", "issue", "return"]),
   ("hostel", ["hostel", "room", "boarding"]),
   ("transport", ["transport", "bus", "vehicle", "route"]),
   ("report", ["report", "analytics", "dashboard", "statistics"])]

/-- Line 344: `any(keyword in link_text for keyword in keywords)`. -/
def moduleMatches (kws : List String) (link : NavLink) : Bool :=
  kws.any (fun kw => pyIn kw link.text)

/-- Lines 345-356 for one matching category: create the dict entry on first
match (name = `module_type.title()`), then append the link and bump the
count.  The dict is modelled as an insertion-ordered association list. -/
def addToModule (dm : List (String × ErpModule)) (mt : String)
    (link : NavLink) : List (String × ErpModule) :=
  match dm with
  | [] => [(mt, { name := pyTitleWord mt, links := [link], count := 1 })]
  | (k, m) :: rest =>
    if k = mt then
      (k, { name := m.name, links := m.links ++ [link], count := m.count + 1 }) :: rest
    else
      (k, m) :: addToModule rest mt link

/-- The inner `for module_type, keywords in erp_module_keywords.items()`
loop of lines 343-356.  Note: the source has no `break`, so one link can be
added to several categories. -/
def classifyLink (dm : List (String × ErpModule)) (link : NavLink) :
    List (String × ErpModule) :=
  erp_module_keywords.foldl
    (fun dm p => if moduleMatches p.2 link then addToModule dm p.1 link else dm)
    dm

/-- Lines 340-356: the `detected_modules` dict after processing all
collected navigation links. -/
def detect_erp_modules_dict (all_links : List NavLink) :
    List (String × ErpModule) :=
  all_links.foldl classifyLink []

/-- Lines 340-359: `modules = list(detected_modules.values())`. -/
def detect_erp_modules (all_links : List NavLink) : List ErpModule :=
  (detect_erp_modules_dict all_links).map (·.2)

/-- The links of `all_links` whose text matches a keyword set. -/
def matchedLinks (kws : List String) (links : List NavLink) : List NavLink :=
  links.filter (moduleMatches kws)

/-! Button detection (`analyze_website`, lines 167-195). -/

/-- Raw attributes of one button-like element handle as read by the
detection loop. -/
structure RawButton where
  inner_text : String
  value : Option String
  aria_label : Option String
  id : Option String
  cls : Option String
  btn_type : Option String
  tag : String
deriving DecidableEq

/-- A detected button record of the snapshot. -/
structure Button where
  text : String
  id : String
  cls : String
  btn_type : String
  tag : String
deriving DecidableEq

/-- Lines 177-191: the button record built from one raw element
(`btn_text`/`btn_id` truthiness chains as in the source). -/
def button_meta (b : RawButton) : Button :=
  { text := pyOrS (pyStrip b.inner_text) (pyOrO b.value (pyOrO b.aria_label "Button"))
  , id := pyOrO b.id ""
  , cls := pyOrO b.cls ""
  , btn_type := pyOrO b.btn_type "button"
  , tag := b.tag }

/-- Lines 174-193: the de-duplication loop over the collected button
handles, keyed on `btn_id` (missing id ↦ `""`), first occurrence kept. -/
def detect_buttons_go (seen : List String) : List RawButton → List Button
  | [] => []
  | b :: rest =>
    let meta := button_meta b
    if meta.id ∈ seen then detect_buttons_go seen rest
    else meta :: detect_buttons_go (meta.id :: seen) rest

/-- The `buttons` component of the snapshot produced by `analyze_website`. -/
def detect_buttons (raw : List RawButton) : List Button :=
  detect_buttons_go [] raw

/-! Multi-level form traversal (`_detect_form_levels`, lines 492-645).
Navigation success is the oracle `navOk` (keyed by target URL); the forms
and the page-wide input count found on a successfully loaded level page are
the oracles `formsAt` / `inputCountAt` (the per-form extraction of lines
583-627 happens on the live page and is abstracted by `formsAt`). -/

/-- One input field of a form on a level page (lines 596-619). -/
structure LevelField where
  tag : String
  name : String
  id : Option String
  placeholder : String
  required : Bool
  label : String
  input_type : Option String
  options : List String
deriving DecidableEq

/-- One form snapshotted on a level page (lines 586-621). -/
structure FormSnapshot where
  form_id : String
  action : String
  method : String
  input_fields : List LevelField
deriving DecidableEq

/-- A discovered level link (lines 530-534). -/
structure LevelLink where
  text : String
  href : String
  full_url : String
deriving DecidableEq

/-- A `level_data` record (lines 573-580). -/
structure FormLevel where
  level_number : Nat
  level_name : String
  url : String
  form_count : Nat
  input_count : Nat
  forms : List FormSnapshot
deriving DecidableEq

/-- The `level_data` built for the idx-th visited level (lines 573-580). -/
def level_data_of (idx : Nat) (link : LevelLink) (forms : List FormSnapshot)
    (input_count : Nat) : FormLevel :=
  { level_number := idx + 1
  , level_name := pyOrS link.text ("Level " ++ toString (idx + 1))
  , url := link.full_url
  , form_count := forms.length
  , input_count := input_count
  , forms := forms }

/-- Result of the traversal: the page URL when the function returns,
the level URLs successfully navigated to, and the collected
`form_levels`. -/
structure TraversalResult where
  final_url : String
  visited : List String
  form_levels : List FormLevel
deriving DecidableEq

/-- One iteration of the `for idx, level_link in enumerate(level_links[:5])`
loop (lines 544-633): on navigation failure the level is skipped
(`continue`, lines 563-565) and the page stays where it was; on success the
page is on the level URL and a `level_data` record is appended. -/
def levelStep (navOk : String → Bool) (formsAt : String → List FormSnapshot)
    (inputCountAt : String → Nat)
    (st : String × List String × List FormLevel) (p : Nat × LevelLink) :
    String × List String × List FormLevel :=
  if navOk p.2.full_url then
    (p.2.full_url, st.2.1 ++ [p.2.full_url],
      st.2.2 ++ [level_data_of p.1 p.2 (formsAt p.2.full_url) (inputCountAt p.2.full_url)])
  else
    st

/-- Lines 540-640: if any level links were discovered, visit at most the
first 5 of them, then try to navigate back to `original_url`
(lines 635-640); that final `goto` failure is swallowed (`except: pass`),
in which case the page stays on the last URL reached. -/
def detect_form_levels_traverse (navOk : String → Bool)
    (formsAt : String → List FormSnapshot) (inputCountAt : String → Nat)
    (original_url : String) (level_links : List LevelLink) :
    TraversalResult :=
  if level_links.isEmpty then
    { final_url := original_url, visited := [], form_levels := [] }
  else
    let r := ((level_links.take 5).enum).foldl
      (levelStep navOk formsAt inputCountAt) (original_url, [], [])
    let final_url := if navOk original_url then original_url else r.1
    { final_url := final_url, visited := r.2.1, form_levels := r.2.2 }

/-! The snapshot data model built by `analyze_website` (lines 95-290). -/

/-- An input-field record (lines 119-126; textareas are appended to
`input_fields` with type "textarea", lines 152-161).  `name` is
`name or id or "unnamed"`, hence a plain string.  `cls` models the
`class` key. -/
structure Field where
  type : String
  name : String
  id : Option String
  placeholder : String
  required : Bool
  cls : String
deriving DecidableEq

/-- A link record (lines 207-210). -/
structure Link where
  text : String
  href : String
deriving DecidableEq

/-- A form record (lines 221-225). -/
structure FormInfo where
  action : String
  method : String
  id : Option String
deriving DecidableEq

/-- A dropdown record (lines 236-239).  The stored `name` is
`name or id`, which can be `None` in the source; the generators call
`.replace` on it, which would raise on `None`, so the model covers
snapshots whose dropdowns carry a name. -/
structure Dropdown where
  name : String
  id : Option String
deriving DecidableEq

/-- A checkbox or radio-button record (lines 130-140). -/
structure CheckboxInfo where
  name : String
  id : Option String
  label : String
deriving DecidableEq

/-- An iframe record (lines 250-254); `id` defaults to "iframe_<n>", hence a
plain string. -/
structure IframeInfo where
  id : String
  name : Option String
  src : Option String
deriving DecidableEq

/-- A table record (lines 267-271); `id` defaults to "table_<n>". -/
structure TableInfo where
  id : String
  headers : List String
  row_count : Nat
deriving DecidableEq

/-- Pagination probe result (lines 668-694). -/
structure Pagination where
  exists_ : Bool
  ptype : Option String
deriving DecidableEq

/-- An enhanced table-analysis record (lines 462-472). -/
structure TableDetail where
  id : String
  headers : List String
  row_count : Nat
  type : String
  pagination : Pagination
  actions : List String
  has_search : Bool
  has_filter : Bool
  has_export : Bool
deriving DecidableEq

/-- A dashboard-widget record (lines 398-403); not consumed by any
generator. -/
structure Widget where
  id : String
  cls : String
  title : String
  type : String
deriving DecidableEq

/-- The `detected` snapshot dict (lines 95-289). -/
structure DetectedElements where
  forms : List FormInfo
  input_fields : List Field
  buttons : List Button
  links : List Link
  dropdowns : List Dropdown
  checkboxes : List CheckboxInfo
  radio_buttons : List CheckboxInfo
  textareas : List Field
  iframes : List IframeInfo
  tables : List TableInfo
  page_title : String
  current_url : String
  modules : List ErpModule
  dashboard_widgets : List Widget
  table_details : List TableDetail
  form_levels : List FormLevel
deriving DecidableEq

/-- The constructor state of `SmartTestEngine` consumed by the generators:
target URL and credentials (lines 12-17). -/
structure EngineConfig where
  website_url : String
  login_id : String
  password : String
  otp_value : Option String
deriving DecidableEq

/-- Line 998 / 1500 / 1697: `if self.login_id and self.password`
(empty strings are falsy). -/
def credsGiven (cfg : EngineConfig) : Bool :=
  cfg.login_id ≠ "" && cfg.password ≠ ""

/-- One generated test-case record.  Core keys first; the remaining keys
appear only in some categories and default to `none` (absent). -/
structure TestCase where
  test_id : String
  test_name : String := ""
  description : String := ""
  steps : List String := []
  expected_result : String := ""
  priority : String := "Medium"
  status : Option String := none
  field : Option String := none
  field_id : Option (Option String) := none
  malicious_payload : Option String := none
  link : Option String := none
  test_type : Option String := none
  category : Option String := none
  module : Option String := none
  estimated_time : Option String := none
  table : Option TableInfo := none
  table_detail : Option TableDetail := none
  iframe : Option IframeInfo := none
  level_number : Option Nat := none
  level_name : Option String := none
  level_url : Option String := none
  form_id : Option String := none
  form_action : Option String := none
  form_method : Option String := none
  field_count : Option Nat := none
  required_field_count : Option Nat := none
deriving DecidableEq

/-- The `self.test_cases` dict: one ordered list per category
(`multi_level` is only populated when form levels were discovered). -/
structure TestSuite where
  positive : List TestCase
  negative : List TestCase
  ui : List TestCase
  functional : List TestCase
  workflow : List TestCase
  edge_case : List TestCase
  multi_level : List TestCase
deriving DecidableEq

/-! `generate_positive_test_cases` (lines 993-1061).  The live
`perform_login` result of line 1006 is the explicit `login_success`
argument. -/

/-- The POS_LOGIN_001 record (lines 1007-1021); its `status` key stores the
live login result. -/
def pos_login_case (cfg : EngineConfig) (login_success : Bool) : TestCase :=
  { test_id := "POS_LOGIN_001"
  , test_name := "Valid Login Test"
  , description := "Verify user can login with valid credentials"
  , steps :=
      [ "Navigate to " ++ cfg.website_url
      , "Enter username: " ++ cfg.login_id
      , "Enter password: [hidden]"
      , "Click login button"
      , "Verify successful login" ]
  , expected_result := "User should be logged in successfully"
  , status := some (if login_success then "PASS" else "FAIL")
  , priority := "High" }

/-- Lines 1026-1038: one positive test per non-sensitive input field. -/
def pos_input_case (inp : Field) : TestCase :=
  { test_id := "POS_INPUT_" ++ pyReplaceChar ' ' '_' inp.name
  , test_name := "Valid input in " ++ inp.name ++ " field"
  , description := "Verify " ++ inp.name ++ " field accepts valid input"
  , steps :=
      [ "Locate field: " ++ inp.name
      , "Enter valid test data"
      , "Verify input is accepted" ]
  , expected_result := "Field should accept valid input"
  , field := some inp.name
  , priority := "Medium" }

/-- Lines 1041-1059: one positive test per dropdown. -/
def pos_dropdown_case (dd : Dropdown) : TestCase :=
  let label := pyOrS dd.name (pyOrO dd.id "dropdown")
  { test_id := "POS_DROPDOWN_" ++ sanitize_identifier label
  , test_name := "Valid selection in " ++ label ++ " dropdown"
  , description := "Ensure dropdown " ++ label ++ " accepts valid selections"
  , steps :=
      [ "Locate dropdown: " ++ label
      , "Open dropdown options"
      , "Select a valid option"
      , "Verify selection is applied" ]
  , expected_result := "Dropdown should update value with selected option"
  , field := some label
  , priority := "Medium" }

/-- `generate_positive_test_cases` as a function of the snapshot, the
credentials and the live login result. -/
def generate_positive_test_cases (cfg : EngineConfig) (d : DetectedElements)
    (login_success : Bool) : List TestCase :=
  (if credsGiven cfg then [pos_login_case cfg login_success] else [])
    ++ ((d.input_fields.filter
          (fun inp => !(["password", "hidden", "submit", "button"].contains inp.type))).map
        pos_input_case)
    ++ (d.dropdowns.map pos_dropdown_case)

/-! `generate_negative_test_cases` (lines 1063-1199). -/

/-- The five fixed login-attack scenarios of lines 1068-1134. -/
def negative_scenarios : List TestCase :=
  [ { test_id := "NEG_LOGIN_001"
    , test_name := "Login with empty username"
    , description := "Verify error message when username is empty"
    , steps :=
        [ "Navigate to login page"
        , "Leave username field empty"
        , "Enter password"
        , "Click login button" ]
    , expected_result := "Error message should be displayed"
    , priority := "High" }
  , { test_id := "NEG_LOGIN_002"
    , test_name := "Login with empty password"
    , description := "Verify error message when password is empty"
    , steps :=
        [ "Navigate to login page"
        , "Enter username"
        , "Leave password field empty"
        , "Click login button" ]
    , expected_result := "Error message should be displayed"
    , priority := "High" }
  , { test_id := "NEG_LOGIN_003"
    , test_name := "Login with invalid credentials"
    , description := "Verify error message for invalid credentials"
    , steps :=
        [ "Navigate to login page"
        , "Enter invalid username: invalid_user"
        , "Enter invalid password: invalid_pass"
        , "Click login button" ]
    , expected_result := "Invalid credentials error should be displayed"
    , priority := "High" }
  , { test_id := "NEG_LOGIN_004"
    , test_name := "Login with SQL injection attempt"
    , description := "Verify system handles SQL injection attempts"
    , steps :=
        [ "Navigate to login page"
        , "Enter username: admin' OR '1'='1"
        , "Enter password: test"
        , "Click login button" ]
    , expected_result := "SQL injection should be blocked"
    , priority := "Critical" }
  , { test_id := "NEG_LOGIN_005"
    , test_name := "Login with XSS attempt"
    , description := "Verify system handles XSS attacks"
    , steps :=
        [ "Navigate to login page"
        , "Enter username: <script>alert(\"XSS\")</script>"
        , "Enter password: test"
        , "Click login button" ]
    , expected_result := "XSS attack should be prevented"
    , priority := "Critical" } ]

/-- Lines 1140-1152: empty-field test for a required field. -/
def neg_empty_case (inp : Field) : TestCase :=
  { test_id := "NEG_INPUT_" ++ pyReplaceChar ' ' '_' inp.name ++ "_EMPTY"
  , test_name := "Empty " ++ inp.name ++ " field test"
  , description := "Verify " ++ inp.name ++ " field validation for empty input"
  , steps :=
      [ "Leave " ++ inp.name ++ " field empty"
      , "Submit form"
      , "Verify validation error" ]
  , expected_result := "Validation error should be displayed"
  , priority := "Medium" }

/-- Lines 1155-1167: boundary test for a text/number/email field. -/
def neg_boundary_case (inp : Field) : TestCase :=
  { test_id := "NEG_INPUT_" ++ pyReplaceChar ' ' '_' inp.name ++ "_BOUNDARY"
  , test_name := "Boundary value test for " ++ inp.name
  , description := "Test " ++ inp.name ++ " with boundary values"
  , steps :=
      [ "Enter very long text in " ++ inp.name ++ " field"
      , "Submit form"
      , "Verify validation" ]
  , expected_result := "Field should handle boundary values correctly"
  , priority := "Medium" }

/-- The `payloads` list of lines 1174-1177. -/
def security_payloads : List (String × String × String) :=
  [ ("SQLI", "SQL injection attempt", "admin' OR '1'='1")
  , ("XSS", "XSS script injection", "<script>alert(\"XSS\")</script>") ]

/-- Lines 1178-1197: the two payload tests for one text-like field. -/
def neg_security_cases (inp : Field) : List TestCase :=
  let label := pyOrS inp.name (pyOrO inp.id "field")
  let sanitized := sanitize_identifier label
  security_payloads.map (fun p =>
    { test_id := "NEG_SECURITY_" ++ sanitized ++ "_" ++ p.1
    , test_name := p.2.1 ++ " in " ++ label
    , description := "Test how " ++ label ++ " handles " ++ pyLower p.2.1 ++ " payloads"
    , steps :=
        [ "Locate field: " ++ label
        , "Enter payload: " ++ p.2.2
        , "Submit the enclosing form or action"
        , "Observe application response" ]
    , expected_result := "Application should reject or sanitize the malicious payload"
    , priority := "Critical"
    , field := some inp.name
    , field_id := some inp.id
    , malicious_payload := some p.2.2 })

/-- `generate_negative_test_cases`: fixed scenarios, then per-field
empty/boundary tests, then security payload tests for the first 10
text-like fields. -/
def generate_negative_test_cases (d : DetectedElements) : List TestCase :=
  negative_scenarios
    ++ (d.input_fields.map (fun inp =>
          (if inp.required then [neg_empty_case inp] else [])
            ++ (if ["text", "number", "email"].contains inp.type then
                  [neg_boundary_case inp] else []))).flatten
    ++ (((d.input_fields.filter
            (fun inp => ["text", "email", "search", "textarea", "url"].contains inp.type)).take 10).map
          neg_security_cases).flatten

/-! `generate_ui_test_cases` (lines 1201-1319). -/

/-- Lines 1206-1219: visibility test per button. -/
def ui_button_case (btn : Button) : TestCase :=
  { test_id := "UI_BUTTON_" ++
      pyTake 30 (pyReplaceChar '/' '_' (pyReplaceChar ' ' '_' btn.text))
  , test_name := "Verify " ++ btn.text ++ " button is visible"
  , description := "Check if " ++ btn.text ++ " button is displayed correctly"
  , steps :=
      [ "Locate button: " ++ btn.text
      , "Verify button is visible"
      , "Verify button is clickable"
      , "Verify button styling is consistent" ]
  , expected_result := "Button should be visible, clickable, and properly styled"
  , priority := "Medium" }

/-- Lines 1222-1237: UI test per non-hidden, non-submit input field. -/
def ui_input_case (inp : Field) : TestCase :=
  { test_id := "UI_INPUT_" ++ pyReplaceChar ' ' '_' inp.name
  , test_name := "Verify " ++ inp.name ++ " field UI"
  , description := "Check UI of " ++ inp.name ++ " input field"
  , steps :=
      [ "Locate field: " ++ inp.name
      , "Verify field is visible"
      , "Verify placeholder text is displayed (if applicable)"
      , "Verify field styling is consistent"
      , "Verify field is properly aligned" ]
  , expected_result := "Field should be properly styled, visible, and aligned"
  , priority := "Medium" }

/-- Lines 1240-1255: UI test per checkbox. -/
def ui_checkbox_case (cb : CheckboxInfo) : TestCase :=
  let label := pyOrS cb.label (pyOrS cb.name "Checkbox")
  { test_id := "UI_CHECKBOX_" ++ sanitize_identifier label
  , test_name := "Verify " ++ label ++ " checkbox visibility"
  , description := "Ensure " ++ label ++ " checkbox is visible, aligned, and toggleable"
  , steps :=
      [ "Locate checkbox: " ++ label
      , "Verify checkbox is visible"
      , "Toggle checkbox on and off"
      , "Verify state changes correctly" ]
  , expected_result := "Checkbox should be visible and reflect user interaction"
  , priority := "Medium" }

/-- Lines 1258-1272: UI test per radio button. -/
def ui_radio_case (rb : CheckboxInfo) : TestCase :=
  let label := pyOrS rb.label (pyOrS rb.name "Radio option")
  { test_id := "UI_RADIO_" ++ sanitize_identifier label
  , test_name := "Verify " ++ label ++ " radio option"
  , description := "Ensure radio option " ++ label ++ " is visible and selectable"
  , steps :=
      [ "Locate radio option: " ++ label
      , "Verify option is visible"
      , "Select the option and verify other options respond appropriately" ]
  , expected_result := "Radio option should be selectable and mutually exclusive"
  , priority := "Medium" }

/-- Lines 1275-1289: UI test per iframe. -/
def ui_iframe_case (fr : IframeInfo) : TestCase :=
  let label := pyOrS fr.id (pyOrO fr.name (pyOrO fr.src "iframe"))
  { test_id := "UI_IFRAME_" ++ sanitize_identifier label
  , test_name := "Verify iframe " ++ label ++ " visibility"
  , description := "Ensure iframe " ++ label ++ " loads correctly"
  , steps :=
      [ "Locate iframe: " ++ label
      , "Verify iframe is visible"
      , "Verify iframe content loads without errors" ]
  , expected_result := "Iframe content should be accessible and visible"
  , priority := "Low" }

/-- Lines 1292-1303: fixed page-title test. -/
def ui_page_title_case (d : DetectedElements) : TestCase :=
  { test_id := "UI_PAGE_001"
  , test_name := "Verify page title"
  , description := "Check if page title is displayed correctly"
  , steps :=
      [ "Load the page"
      , "Verify page title is present"
      , "Verify page title is meaningful" ]
  , expected_result := "Page title should be: " ++ pyOrS d.page_title "N/A"
  , priority := "Low" }

/-- Lines 1305-1317: fixed responsive-design test. -/
def ui_page_responsive_case : TestCase :=
  { test_id := "UI_PAGE_002"
  , test_name := "Verify responsive design"
  , description := "Check if page is responsive on different screen sizes"
  , steps :=
      [ "Open page on desktop"
      , "Resize browser to mobile size"
      , "Verify layout adjusts properly"
      , "Verify all elements are accessible" ]
  , expected_result := "Page should be responsive and usable on all screen sizes"
  , priority := "High" }

/-- `generate_ui_test_cases`. -/
def generate_ui_test_cases (d : DetectedElements) : List TestCase :=
  (d.buttons.map ui_button_case)
    ++ ((d.input_fields.filter
          (fun inp => !(["hidden", "submit"].contains inp.type))).map ui_input_case)
    ++ (d.checkboxes.map ui_checkbox_case)
    ++ (d.radio_buttons.map ui_radio_case)
    ++ (d.iframes.map ui_iframe_case)
    ++ [ui_page_title_case d, ui_page_responsive_case]

/-! `generate_functional_test_cases` (lines 1321-1493).  The calls to
`generate_multi_step_workflows` / `generate_edge_case_tests` at the end of
the source method fill the `workflow` / `edge_case` categories and are
modelled by their own functions below. -/

/-- Lines 1326-1345: navigation test per one of the first 15 links. -/
def func_nav_case (cfg : EngineConfig) (lk : Link) : TestCase :=
  { test_id := "FUNC_NAV_" ++
      pyTake 25 (pyReplaceChar '/' '_' (pyReplaceChar ' ' '_' lk.text))
  , test_name := "Verify navigation to " ++ lk.text
  , description := "Test navigation functionality for " ++ lk.text ++ " link"
  , steps :=
      [ "Navigate to page: " ++ cfg.website_url
      , "Locate and click on link: " ++ lk.text
      , "Wait for page to load"
      , "Verify page navigation occurs"
      , "Verify new page URL is correct"
      , "Verify page loads without errors"
      , "Verify page content is displayed"
      , "Verify no broken links or missing resources" ]
  , expected_result := "Page should navigate successfully without errors and display correct content"
  , link := some lk.href
  , priority := "Medium"
  , test_type := some "navigation" }

/-- Lines 1348-1367: click test per button not literally named
login/submit. -/
def func_button_case (cfg : EngineConfig) (btn : Button) : TestCase :=
  { test_id := "FUNC_BTN_" ++
      pyTake 25 (pyReplaceChar '/' '_' (pyReplaceChar ' ' '_' btn.text))
  , test_name := "Verify " ++ btn.text ++ " button functionality"
  , description := "Test functionality of " ++ btn.text ++ " button"
  , steps :=
      [ "Navigate to page: " ++ cfg.website_url
      , "Locate button: " ++ btn.text
      , "Verify button is visible and enabled"
      , "Click button: " ++ btn.text
      , "Wait for action to complete"
      , "Verify expected action occurs"
      , "Verify no error messages are displayed"
      , "Verify page state changes if applicable" ]
  , expected_result := "Button should perform expected action without errors"
  , priority := "Medium"
  , test_type := some "button_functionality" }

/-- Lines 1370-1389: submission test per form.  `form.get('id', 'unknown')`
returns the stored value, which the snapshot always sets (possibly `None`,
rendered "None" by the f-string). -/
def func_form_case (cfg : EngineConfig) (f : FormInfo) : TestCase :=
  { test_id := "FUNC_FORM_" ++ pyShowOpt f.id
  , test_name := "Verify form submission functionality"
  , description := "Test form submission for form: " ++ pyShowOpt f.id
  , steps :=
      [ "Navigate to page: " ++ cfg.website_url
      , "Locate the form"
      , "Fill all required fields with valid data"
      , "Verify all fields are filled correctly"
      , "Submit the form"
      , "Wait for form submission to complete"
      , "Verify form submission is successful"
      , "Verify appropriate response is received"
      , "Verify success message or redirect occurs" ]
  , expected_result := "Form should submit successfully with proper validation"
  , priority := "High"
  , test_type := some "form_submission" }

/-- Lines 1392-1410: input-functionality test per eligible field. -/
def func_input_case (cfg : EngineConfig) (inp : Field) : TestCase :=
  { test_id := "FUNC_INPUT_" ++ pyReplaceChar ' ' '_' inp.name
  , test_name := "Verify " ++ inp.name ++ " input field functionality"
  , description := "Test input functionality for " ++ inp.name ++ " field"
  , steps :=
      [ "Navigate to page: " ++ cfg.website_url
      , "Locate input field: " ++ inp.name
      , "Verify field is visible and enabled"
      , "Enter test data in the field"
      , "Verify data is accepted"
      , "Verify field validation works"
      , "Verify field formatting if applicable" ]
  , expected_result := "Input field should accept and process data correctly"
  , priority := "Medium"
  , test_type := some "input_functionality" }

/-- Lines 1413-1430: dropdown-functionality test. -/
def func_dropdown_case (cfg : EngineConfig) (dd : Dropdown) : TestCase :=
  { test_id := "FUNC_DROPDOWN_" ++ pyReplaceChar ' ' '_' dd.name
  , test_name := "Verify dropdown " ++ dd.name ++ " functionality"
  , description := "Test dropdown functionality for " ++ dd.name
  , steps :=
      [ "Navigate to page: " ++ cfg.website_url
      , "Locate dropdown: " ++ dd.name
      , "Click on dropdown to open"
      , "Verify dropdown options are displayed"
      , "Select an option from dropdown"
      , "Verify selected option is displayed"
      , "Verify dropdown value is updated" ]
  , expected_result := "Dropdown should allow selection and update value correctly"
  , priority := "Medium"
  , test_type := some "dropdown_functionality" }

/-- Lines 1433-1449: table-validation test per detected table. -/
def func_table_case (t : TableInfo) : TestCase :=
  let table_id := pyOrS t.id "data_table"
  { test_id := "FUNC_TABLE_" ++ sanitize_identifier table_id
  , test_name := "Verify data table " ++ table_id ++ " renders correctly"
  , description := "Check table " ++ table_id ++ " row counts and headers"
  , steps :=
      [ "Locate table: " ++ table_id
      , "Verify headers are displayed"
      , "Verify row count matches expected data"
      , "Scroll through table content if paginated" ]
  , expected_result := "Table should render rows and headers without layout issues"
  , priority := "Medium"
  , test_type := some "table_validation"
  , table := some t }

/-- Lines 1452-1468: iframe-interaction test. -/
def func_iframe_case (fr : IframeInfo) : TestCase :=
  let label := pyOrS fr.id (pyOrO fr.name (pyOrO fr.src "iframe"))
  { test_id := "FUNC_IFRAME_" ++ sanitize_identifier label
  , test_name := "Verify iframe " ++ label ++ " interaction"
  , description := "Ensure iframe " ++ label ++ " loads and can be switched to"
  , steps :=
      [ "Locate iframe: " ++ label
      , "Switch focus to iframe"
      , "Verify iframe content loads"
      , "Switch back to parent context" ]
  , expected_result := "Iframe should be accessible and load content."
  , priority := "Low"
  , test_type := some "iframe_validation"
  , iframe := some fr }

/-- Lines 1471-1485: the fixed performance test. -/
def func_perf_case (cfg : EngineConfig) : TestCase :=
  { test_id := "FUNC_PERF_001"
  , test_name := "Verify page load performance"
  , description := "Test page load time and performance"
  , steps :=
      [ "Navigate to page: " ++ cfg.website_url
      , "Measure page load time"
      , "Verify page loads within acceptable time"
      , "Verify all resources are loaded"
      , "Verify no broken images or missing resources" ]
  , expected_result := "Page should load within acceptable time with all resources"
  , priority := "Medium"
  , test_type := some "performance" }

/-- The functional test cases appended by `generate_functional_test_cases`
itself (lines 1326-1485). -/
def generate_functional_test_cases (cfg : EngineConfig)
    (d : DetectedElements) : List TestCase :=
  ((d.links.take 15).map (func_nav_case cfg))
    ++ ((d.buttons.filter
          (fun btn => !(["login", "submit"].contains (pyLower btn.text)))).map
        (func_button_case cfg))
    ++ (d.forms.map (func_form_case cfg))
    ++ ((d.input_fields.filter
          (fun inp => !(["hidden", "submit", "button", "password"].contains inp.type))).map
        (func_input_case cfg))
    ++ (d.dropdowns.map (func_dropdown_case cfg))
    ++ (d.tables.map func_table_case)
    ++ (d.iframes.map func_iframe_case)
    ++ [func_perf_case cfg]

/-! `generate_multi_step_workflows` (lines 1495-1583). -/

/-- Lines 1500-1526: the full login workflow (credentials given). -/
def workflow_login_case (cfg : EngineConfig) : TestCase :=
  { test_id := "WORKFLOW_LOGIN_001"
  , test_name := "Complete Login Workflow"
  , description := "Test end-to-end login workflow with all steps"
  , steps :=
      [ "Navigate to login page: " ++ cfg.website_url
      , "Verify login page is displayed"
      , "Verify username field is visible"
      , "Verify password field is visible"
      , "Enter valid username"
      , "Enter valid password"
      , "Click login button"
      , "Wait for authentication"
      , "Handle OTP if required"
      , "Verify successful login"
      , "Verify user is redirected to appropriate page"
      , "Verify user session is established"
      , "Verify dashboard/widgets are loaded"
      , "Verify user can access protected resources" ]
  , expected_result := "Complete login workflow should work seamlessly"
  , priority := "Critical"
  , test_type := some "workflow"
  , category := some "authentication"
  , estimated_time := some "2-3 minutes" }

/-- Lines 1531-1554: workflow per one of the first 3 forms. -/
def workflow_form_case (cfg : EngineConfig) (idx : Nat) : TestCase :=
  { test_id := "WORKFLOW_FORM_" ++ pad3 (idx + 1)
  , test_name := "Complete Form Submission Workflow - Form " ++ toString (idx + 1)
  , description := "Test end-to-end form submission workflow for form " ++ toString (idx + 1)
  , steps :=
      [ "Navigate to page: " ++ cfg.website_url
      , "Locate form on page"
      , "Verify all required fields are visible"
      , "Fill all mandatory fields with valid data"
      , "Fill optional fields if applicable"
      , "Verify form validation (if any)"
      , "Submit form"
      , "Wait for submission to complete"
      , "Verify success message/confirmation"
      , "Verify redirect or page update"
      , "Verify submitted data appears correctly" ]
  , expected_result := "Form should submit successfully and display confirmation"
  , priority := "High"
  , test_type := some "workflow"
  , category := some "form_submission"
  , estimated_time := some "1-2 minutes" }

/-- Lines 1558-1583: workflow per one of the first 3 modules with at least
one link (first 3 links considered). -/
def workflow_module_case (m : ErpModule) : List TestCase :=
  let module_name := pyLower m.name
  let module_links := m.links.take 3
  match module_links with
  | [] => []
  | l0 :: _ =>
    [ { test_id := "WORKFLOW_MODULE_" ++ sanitize_identifier module_name
      , test_name := "Module Navigation Workflow - " ++ pyTitleWord module_name
      , description := "Test navigation through " ++ module_name ++ " module"
      , steps :=
          [ "Login to system (if required)"
          , "Navigate to " ++ module_name ++ " module"
          , "Verify module page loads correctly"
          , "Click on \"" ++ l0.text ++ "\" link"
          , "Verify navigation occurs"
          , "Verify page content is correct"
          , "Navigate back to module main page"
          , "Verify all module links are accessible" ]
      , expected_result := "All navigation within " ++ module_name ++ " module should work correctly"
      , priority := "High"
      , test_type := some "workflow"
      , category := some "module_navigation"
      , module := some module_name
      , estimated_time := some "2-3 minutes" } ]

/-- `generate_multi_step_workflows`. -/
def generate_multi_step_workflows (cfg : EngineConfig)
    (d : DetectedElements) : List TestCase :=
  (if credsGiven cfg then [workflow_login_case cfg] else [])
    ++ ((d.forms.take 3).enum.map (fun p => workflow_form_case cfg p.1))
    ++ ((d.modules.take 3).map workflow_module_case).flatten

/-! `generate_edge_case_tests` (lines 1585-1714). -/

/-- Lines 1596-1612: maximum-length test for an eligible field. -/
def edge_max_length_case (cfg : EngineConfig) (field_name : String) : TestCase :=
  { test_id := "EDGE_MAX_LENGTH_" ++ sanitize_identifier field_name
  , test_name := "Maximum Length Test - " ++ field_name
  , description := "Test field accepts maximum allowed characters"
  , steps :=
      [ "Navigate to page: " ++ cfg.website_url
      , "Locate field: " ++ field_name
      , "Generate input with maximum allowed length"
      , "Enter maximum length value"
      , "Verify field accepts the input"
      , "Verify field truncates or validates correctly" ]
  , expected_result := "Field should handle maximum length input correctly"
  , priority := "Medium"
  , test_type := some "boundary"
  , category := some "input_validation" }

/-- Lines 1616-1632: empty-required-field test. -/
def edge_empty_required_case (cfg : EngineConfig) (field_name : String) : TestCase :=
  { test_id := "EDGE_EMPTY_REQUIRED_" ++ sanitize_identifier field_name
  , test_name := "Empty Required Field Test - " ++ field_name
  , description := "Test validation when required field is empty"
  , steps :=
      [ "Navigate to page: " ++ cfg.website_url
      , "Locate required field: " ++ field_name
      , "Leave field empty"
      , "Attempt to submit form"
      , "Verify error message is displayed"
      , "Verify form does not submit" ]
  , expected_result := "Required field should show validation error when empty"
  , priority := "High"
  , test_type := some "validation"
  , category := some "required_field" }

/-- Lines 1635-1650: special-characters test. -/
def edge_special_chars_case (cfg : EngineConfig) (field_name : String) : TestCase :=
  { test_id := "EDGE_SPECIAL_CHARS_" ++ sanitize_identifier field_name
  , test_name := "Special Characters Test - " ++ field_name
  , description := "Test field handling of special characters"
  , steps :=
      [ "Navigate to page: " ++ cfg.website_url
      , "Locate field: " ++ field_name
      , "Enter value with special characters (!@#$%^&*)"
      , "Verify field accepts or rejects correctly"
      , "Verify proper sanitization or validation" ]
  , expected_result := "Field should handle special characters appropriately"
  , priority := "Medium"
  , test_type := some "validation"
  , category := some "special_characters" }

/-- Lines 1591-1650: the tests contributed by one of the first 10 input
fields (only text/number/email fields are eligible; the empty-required
test additionally needs `required`). -/
def edge_field_cases (cfg : EngineConfig) (inp : Field) : List TestCase :=
  if ["text", "number", "email"].contains inp.type then
    [edge_max_length_case cfg inp.name]
      ++ (if inp.required then [edge_empty_required_case cfg inp.name] else [])
      ++ [edge_special_chars_case cfg inp.name]
  else
    []

/-- Lines 1655-1674: pagination edge test per one of the first 5 analyzed
tables that report pagination. -/
def edge_table_pagination_case (cfg : EngineConfig) (t : TableDetail) : TestCase :=
  { test_id := "EDGE_TABLE_PAGINATION_" ++ t.id
  , test_name := "Table Pagination Edge Case - " ++ t.id
  , description := "Test table pagination edge cases (first, last, empty)"
  , steps :=
      [ "Navigate to page: " ++ cfg.website_url
      , "Locate table: " ++ t.id
      , "Navigate to first page"
      , "Verify first page displays correctly"
      , "Navigate to last page"
      , "Verify last page displays correctly"
      , "Test empty table scenario (if applicable)"
      , "Verify pagination controls work correctly" ]
  , expected_result := "Table pagination should handle edge cases correctly"
  , priority := "Medium"
  , test_type := some "pagination"
  , category := some "table_behavior" }

/-- Lines 1678-1694: the fixed rapid-clicks test (any button present). -/
def edge_rapid_clicks_case (cfg : EngineConfig) : TestCase :=
  { test_id := "EDGE_RAPID_CLICKS"
  , test_name := "Rapid Button Clicks Test"
  , description := "Test behavior when button is clicked rapidly multiple times"
  , steps :=
      [ "Navigate to page: " ++ cfg.website_url
      , "Locate a submit/submit-like button"
      , "Click button rapidly 3-5 times"
      , "Verify system handles rapid clicks correctly"
      , "Verify no duplicate submissions occur"
      , "Verify button state updates correctly" ]
  , expected_result := "System should prevent duplicate submissions from rapid clicks"
  , priority := "Medium"
  , test_type := some "concurrency"
  , category := some "button_behavior" }

/-- Lines 1698-1714: the fixed session-timeout test (credentials given). -/
def edge_session_timeout_case : TestCase :=
  { test_id := "EDGE_SESSION_TIMEOUT"
  , test_name := "Session Timeout Test"
  , description := "Test behavior when session expires"
  , steps :=
      [ "Login to system"
      , "Wait for session to timeout (or simulate timeout)"
      , "Attempt to perform an action"
      , "Verify session expired message is displayed"
      , "Verify user is redirected to login page"
      , "Verify user can login again after timeout" ]
  , expected_result := "System should handle session timeout gracefully"
  , priority := "High"
  , test_type := some "session"
  , category := some "authentication" }

/-- `generate_edge_case_tests`. -/
def generate_edge_case_tests (cfg : EngineConfig) (d : DetectedElements) :
    List TestCase :=
  ((d.input_fields.take 10).map (edge_field_cases cfg)).flatten
    ++ ((d.table_details.take 5).map (fun t =>
          if t.pagination.exists_ then [edge_table_pagination_case cfg t] else [])).flatten
    ++ (if d.buttons.isEmpty then [] else [edge_rapid_clicks_case cfg])
    ++ (if credsGiven cfg then [edge_session_timeout_case] else [])

/-! `generate_module_specific_tests` (lines 1722-1859): appended to the
functional category. -/

/-- Lines 1744-1757 and analogues: navigation test for a module link, with
the given id prefix, module tag and priority. -/
def module_nav_case (idPrefix displayName moduleTag priority : String)
    (lk : NavLink) : TestCase :=
  { test_id := idPrefix ++ sanitize_identifier lk.text
  , test_name := displayName ++ " Module: Navigate to " ++ lk.text
  , description := "Verify navigation to " ++ lk.text ++ " in " ++ displayName ++ " module"
  , test_type := some "navigation"
  , link := some lk.href
  , module := some moduleTag
  , priority := priority }

/-- Lines 1778-1786: fixed attendance-table test. -/
def attendance_table_case (t : TableDetail) : TestCase :=
  { test_id := "FUNC_ATTENDANCE_TABLE_VIEW"
  , test_name := "Attendance Table: Verify table display"
  , description := "Verify attendance table displays correctly"
  , test_type := some "table_validation"
  , table_detail := some t
  , module := some "attendance"
  , priority := "Medium" }

/-- Lines 1807-1815: fixed examination-table test. -/
def exam_table_case (t : TableDetail) : TestCase :=
  { test_id := "FUNC_EXAM_TABLE_VIEW"
  , test_name := "Examination Table: Verify results display"
  , description := "Verify examination results table displays correctly"
  , test_type := some "table_validation"
  , table_detail := some t
  , module := some "examination"
  , priority := "High" }

/-- Lines 1836-1844: fixed fee-table test. -/
def fee_table_case (t : TableDetail) : TestCase :=
  { test_id := "FUNC_FEE_TABLE_VIEW"
  , test_name := "Fee Table: Verify fee records display"
  , description := "Verify fee records table displays correctly"
  , test_type := some "table_validation"
  , table_detail := some t
  , module := some "finance"
  , priority := "High" }

/-- Lines 1730-1742: dispatch on the lowered module name. -/
def module_specific_cases (d : DetectedElements) (m : ErpModule) :
    List TestCase :=
  let module_name := pyLower m.name
  if module_name = "student" then
    (m.links.take 5).map (module_nav_case "FUNC_STUDENT_" "Student" "student" "High")
  else if module_name = "attendance" then
    ((m.links.take 5).map (module_nav_case "FUNC_ATTENDANCE_" "Attendance" "attendance" "High"))
      ++ ((d.table_details.filter (fun t => t.type = "attendance")).map attendance_table_case)
  else if module_name = "examination" then
    ((m.links.take 5).map (module_nav_case "FUNC_EXAM_" "Examination" "examination" "High"))
      ++ ((d.table_details.filter (fun t => t.type = "examination")).map exam_table_case)
  else if module_name = "finance" then
    ((m.links.take 5).map (module_nav_case "FUNC_FINANCE_" "Finance" "finance" "High"))
      ++ ((d.table_details.filter (fun t => t.type = "fee_record")).map fee_table_case)
  else if module_name = "teacher" then
    (m.links.take 5).map (module_nav_case "FUNC_TEACHER_" "Teacher" "teacher" "Medium")
  else
    []

/-- `generate_module_specific_tests`. -/
def generate_module_specific_tests (d : DetectedElements) : List TestCase :=
  if d.modules.isEmpty then []
  else (d.modules.map (module_specific_cases d)).flatten

/-! `_generate_multi_level_tests` (lines 1899-2013). -/

/-- Lines 1924-1953: positive multi-level form test. -/
def multi_level_positive_case (level : FormLevel) (form_idx : Nat)
    (f : FormSnapshot) : TestCase :=
  { test_id := "MULTI_LEVEL_" ++ toString level.level_number ++ "_FORM_" ++
      pad3 (form_idx + 1) ++ "_POSITIVE"
  , test_name := "Test " ++ level.level_name ++ " - Form " ++ toString (form_idx + 1) ++ " (Positive)"
  , description := "Test form submission for " ++ level.level_name ++ " with valid data"
  , level_number := some level.level_number
  , level_name := some level.level_name
  , level_url := some level.url
  , form_id := some f.form_id
  , form_action := some f.action
  , form_method := some f.method
  , steps :=
      [ "Navigate to " ++ level.url
      , "Wait for page to load completely"
      , "Locate form: " ++ f.form_id
      , "Verify form is visible and accessible"
      , "Fill all required fields with valid test data"
      , "Fill optional fields if present"
      , "Submit form"
      , "Wait for submission to complete"
      , "Verify success message or confirmation" ]
  , expected_result := "Form in " ++ level.level_name ++ " should submit successfully with valid data"
  , priority := "High"
  , test_type := some "multi_level_form"
  , category := some "form_submission"
  , field_count := some f.input_fields.length
  , required_field_count := some (f.input_fields.filter (·.required)).length }

/-- Lines 1956-1983: negative multi-level form test. -/
def multi_level_negative_case (level : FormLevel) (form_idx : Nat)
    (f : FormSnapshot) : TestCase :=
  { test_id := "MULTI_LEVEL_" ++ toString level.level_number ++ "_FORM_" ++
      pad3 (form_idx + 1) ++ "_NEGATIVE"
  , test_name := "Test " ++ level.level_name ++ " - Form " ++ toString (form_idx + 1) ++ " (Negative)"
  , description := "Test form validation for " ++ level.level_name ++ " with invalid data"
  , level_number := some level.level_number
  , level_name := some level.level_name
  , level_url := some level.url
  , form_id := some f.form_id
  , form_action := some f.action
  , form_method := some f.method
  , steps :=
      [ "Navigate to " ++ level.url
      , "Wait for page to load completely"
      , "Locate form: " ++ f.form_id
      , "Leave required fields empty"
      , "Submit form"
      , "Verify validation error messages appear"
      , "Verify form does not submit" ]
  , expected_result := "Form in " ++ level.level_name ++ " should show validation errors for invalid data"
  , priority := "Medium"
  , test_type := some "multi_level_form"
  , category := some "form_validation"
  , field_count := some f.input_fields.length
  , required_field_count := some (f.input_fields.filter (·.required)).length }

/-- Lines 1986-2010: UI multi-level form test. -/
def multi_level_ui_case (level : FormLevel) (form_idx : Nat)
    (f : FormSnapshot) : TestCase :=
  { test_id := "MULTI_LEVEL_" ++ toString level.level_number ++ "_FORM_" ++
      pad3 (form_idx + 1) ++ "_UI"
  , test_name := "Test " ++ level.level_name ++ " - Form " ++ toString (form_idx + 1) ++ " (UI Verification)"
  , description := "Verify UI elements and layout of form in " ++ level.level_name
  , level_number := some level.level_number
  , level_name := some level.level_name
  , level_url := some level.url
  , form_id := some f.form_id
  , steps :=
      [ "Navigate to " ++ level.url
      , "Wait for page to load completely"
      , "Locate form: " ++ f.form_id
      , "Verify form is visible"
      , "Verify all " ++ toString f.input_fields.length ++ " form fields are present"
      , "Verify labels are displayed correctly"
      , "Verify submit button is visible and enabled" ]
  , expected_result := "All form elements in " ++ level.level_name ++ " should be visible and properly displayed"
  , priority := "Medium"
  , test_type := some "multi_level_form"
  , category := some "ui_verification"
  , field_count := some f.input_fields.length }

/-- `_generate_multi_level_tests`: levels without forms are skipped. -/
def generate_multi_level_tests (d : DetectedElements) : List TestCase :=
  (d.form_levels.map (fun level =>
    (level.forms.enum.map (fun p =>
      [ multi_level_positive_case level p.1 p.2
      , multi_level_negative_case level p.1 p.2
      , multi_level_ui_case level p.1 p.2 ])).flatten)).flatten

/-- `generate_all_tests` (lines 1874-1897) as a function of the snapshot,
the configured credentials and the live login result used by
`generate_positive_test_cases`.  Module-specific tests are appended to the
functional category after the core functional tests; `multi_level` is
populated only when form levels were discovered. -/
def generate_all_tests (cfg : EngineConfig) (d : DetectedElements)
    (login_success : Bool) : TestSuite :=
  { positive := generate_positive_test_cases cfg d login_success
  , negative := generate_negative_test_cases d
  , ui := generate_ui_test_cases d
  , functional := generate_functional_test_cases cfg d ++ generate_module_specific_tests d
  , workflow := generate_multi_step_workflows cfg d
  , edge_case := generate_edge_case_tests cfg d
  , multi_level := if d.form_levels.isEmpty then [] else generate_multi_level_tests d }

/-- Erase the `status` key of a test case (the one key that stores a live
value: the result of the login attempt). -/
def eraseStatusTC (t : TestCase) : TestCase := { t with status := none }

/-- Erase the `status` keys of a whole suite. -/
def eraseStatusSuite (s : TestSuite) : TestSuite :=
  { positive := s.positive.map eraseStatusTC
  , negative := s.negative.map eraseStatusTC
  , ui := s.ui.map eraseStatusTC
  , functional := s.functional.map eraseStatusTC
  , workflow := s.workflow.map eraseStatusTC
  , edge_case := s.edge_case.map eraseStatusTC
  , multi_level := s.multi_level.map eraseStatusTC }

/-! Auxiliary definitions used by the theorems below. -/

/-- One dict-update step of lines 345-356 seen from a single key: create
the module record on first match, else append the link and bump the
count. -/
def updateModule (mt : String) (link : NavLink) : Option ErpModule → ErpModule
  | none => { name := pyTitleWord mt, links := [link], count := 1 }
  | some m => { name := m.name, links := m.links ++ [link], count := m.count + 1 }

/-- Iterated `updateModule` over a list of links to add. -/
def applyMatched (mt : String) (ls : List NavLink) (o : Option ErpModule) :
    Option ErpModule :=
  ls.foldl (fun o l => some (updateModule mt l o)) o

/-- Lookup of a key in the modelled `detected_modules` dict. -/
def lookupModule : List (String × ErpModule) → String → Option ErpModule
  | [], _ => none
  | (k0, m0) :: tl, k => if k0 = k then some m0 else lookupModule tl k

/-- Bool test identifying the empty-required-field edge tests by their
`category` key. -/
def isEmptyRequiredTC (t : TestCase) : Bool := t.category == some "required_field"

/-- Bool test for an edge-eligible required field (first-10 loop of
`generate_edge_case_tests`). -/
def isEdgeRequiredField (inp : Field) : Bool :=
  ["text", "number", "email"].contains inp.type && inp.required

/-! Concrete inputs used by counterexamples and witnesses. -/

/-- Engine configuration of the end-to-end scenario (credentials given). -/
def cfg9 : EngineConfig :=
  { website_url := "http://testsite.local", login_id := "admin"
  , password := "secret", otp_value := none }

/-- The required text field named `email` of the end-to-end scenario. -/
def emailField : Field :=
  { type := "text", name := "email", id := some "email", placeholder := ""
  , required := true, cls := "" }

/-- The password field of the end-to-end scenario. -/
def passwordField : Field :=
  { type := "password", name := "password", id := some "password"
  , placeholder := "", required := false, cls := "" }

/-- The end-to-end scenario snapshot: one required text field `email`, one
password field, one button labelled "Login", two links, nothing else. -/
def d9 : DetectedElements :=
  { forms := []
  , input_fields := [emailField, passwordField]
  , buttons := [{ text := "Login", id := "loginBtn", cls := "btn"
                , btn_type := "submit", tag := "button" }]
  , links := [{ text := "About Us", href := "/about" }
             , { text := "Contact", href := "/contact" }]
  , dropdowns := [], checkboxes := [], radio_buttons := [], textareas := []
  , iframes := [], tables := [], page_title := "Test Site"
  , current_url := "http://testsite.local"
  , modules := [], dashboard_widgets := [], table_details := []
  , form_levels := [] }

/-- A snapshot whose only input field is a required password field. -/
def dC5 : DetectedElements :=
  { forms := []
  , input_fields := [{ type := "password", name := "pwd", id := none
                     , placeholder := "", required := true, cls := "" }]
  , buttons := [], links := [], dropdowns := [], checkboxes := []
  , radio_buttons := [], textareas := [], iframes := [], tables := []
  , page_title := "", current_url := "http://x"
  , modules := [], dashboard_widgets := [], table_details := []
  , form_levels := [] }

/-- A navigation link whose lowered text matches both the student and the
teacher keyword sets. -/
def stLink : NavLink := { text := "student teacher portal", href := "", id := "" }

/-- Navigation oracle under which only the level-1 URL is reachable (the
restore navigation to the original URL fails). -/
def navOkCE : String → Bool := fun u => u == "http://s/level1"

/-- The single level link of the traversal counterexample. -/
def levelLinkCE : LevelLink :=
  { text := "Level 1", href := "/level1", full_url := "http://s/level1" }

/-- Navigation oracle of the traversal witness: the original URL and the
second level are reachable, the first level is not. -/
def navOkW : String → Bool :=
  fun u => u == "http://s/home" || u == "http://s/level2"

/-- The two level links of the traversal witness. -/
def levelLinksW : List LevelLink :=
  [ { text := "Level 1", href := "/level1", full_url := "http://s/level1" }
  , { text := "Level 2", href := "/level2", full_url := "http://s/level2" } ]

/-! Theorems.  One theorem per claim (plus counterexamples and witnesses),
with shared helper lemmas. -/

/-- C8 (confirmed): table classification maps ["Roll No","Name","Admission
No"] to student_list, ["Fee","Amount","Balance"] to fee_record and
["Foo","Bar"] to generic, and for every header list it agrees with
first-match-wins evaluation of the ordered rule table student_list →
fee_record → attendance → examination → teacher_list → library →
transport → generic. -/
theorem classify_erp_table_concrete_and_ordered :
    classify_erp_table ["Roll No", "Name", "Admission No"] = "student_list" ∧
    classify_erp_table ["Fee", "Amount", "Balance"] = "fee_record" ∧
    classify_erp_table ["Foo", "Bar"] = "generic" ∧
    ∀ headers : List String,
      classify_erp_table headers = classify_erp_table_spec headers :=
  ⟨by decide, by decide, by decide, fun _ => rfl⟩

/-- C7 (confirmed): the login outcome heuristic reports failure exactly
when the post-submit URL equals the initial URL, no success keyword
(dashboard/welcome/home) occurs in the lowered page body, and a failure
keyword (error/invalid/incorrect/failed) does occur; in every other case —
including the case where neither keyword set matches — it reports
success. -/
theorem perform_login_outcome_spec (cu wu pc : String) :
    (perform_login_outcome cu wu pc = false ↔
      cu = wu ∧ hasSuccessKeyword (pyLower pc) = false ∧
        hasFailureKeyword (pyLower pc) = true) ∧
    (perform_login_outcome cu wu pc = true ↔
      (cu ≠ wu ∨ hasSuccessKeyword (pyLower pc) = true ∨
        hasFailureKeyword (pyLower pc) = false)) := by
  simp only [perform_login_outcome, hasSuccessKeyword, hasFailureKeyword]
  by_cases h : cu = wu <;>
    cases h1 : pyIn "dashboard" (pyLower pc) <;>
    cases h2 : pyIn "welcome" (pyLower pc) <;>
    cases h3 : pyIn "home" (pyLower pc) <;>
    cases h4 : pyIn "error" (pyLower pc) <;>
    cases h5 : pyIn "invalid" (pyLower pc) <;>
    cases h6 : pyIn "incorrect" (pyLower pc) <;>
    cases h7 : pyIn "failed" (pyLower pc) <;>
    simp [h, h1, h2, h3, h4, h5, h6, h7]

/-- Count of output buttons sharing a given dedup key, bounded by whether
the key was already seen. -/
theorem detect_buttons_go_countP (s : String) :
    ∀ (l : List RawButton) (seen : List String),
      (detect_buttons_go seen l).countP (fun b => b.id == s) ≤
        (if s ∈ seen then 0 else 1) := by
  intro l
  induction l with
  | nil => intro seen; simp [detect_buttons_go]
  | cons a t ih =>
    intro seen
    simp only [detect_buttons_go]
    split
    · exact ih seen
    · rename_i hnot
      rw [List.countP_cons]
      by_cases hs : (button_meta a).id = s
      · subst hs
        have hc := ih ((button_meta a).id :: seen)
        rw [if_pos (List.mem_cons_self _ _)] at hc
        rw [if_neg hnot]
        simp only [beq_self_eq_true, if_true]
        omega
      · have hc := ih ((button_meta a).id :: seen)
        have hmem : (s ∈ (button_meta a).id :: seen) ↔ s ∈ seen := by
          constructor
          · intro hin
            rcases List.mem_cons.mp hin with h | h
            · exact absurd h.symm hs
            · exact h
          · exact fun h => List.mem_cons_of_mem _ h
        rw [if_congr hmem rfl rfl] at hc
        have hpa : ((button_meta a).id == s) = false :=
          beq_eq_false_iff_ne.mpr hs
        rw [hpa]
        simpa using hc

/-- C10 (confirmed): in every snapshot produced by the button-detection
loop of `analyze_website`, at most one detected button has the empty id
(the dedup key of a button without an id attribute), because the
de-duplication keys on `get_attribute("id") or ""` and skips every later
button with an already-seen key. -/
theorem detect_buttons_at_most_one_idless (raw : List RawButton) :
    (detect_buttons raw).countP (fun b => b.id == "") ≤ 1 := by
  have h := detect_buttons_go_countP "" raw []
  simpa [detect_buttons] using h

/-- The OTP wait loop breaks exactly when some poll within its window sees
a ready value. -/
theorem otpWaitAux_found_iff (p : Nat → String) :
    ∀ (fuel w : Nat),
      ((otpWaitAux p w fuel).2 = true ↔
        ∃ i, w ≤ i ∧ i < min (w + fuel) 60 ∧ otpValueReady (p i) = true) := by
  intro fuel
  induction fuel with
  | zero =>
    intro w
    simp only [otpWaitAux]
    constructor
    · intro h; exact absurd h (by simp)
    · rintro ⟨i, h1, h2, _⟩
      rw [Nat.lt_min] at h2
      omega
  | succ f ih =>
    intro w
    by_cases hw : w < 60
    · by_cases hr : otpValueReady (p w) = true
      · simp only [otpWaitAux, if_pos hw, hr, if_pos]
        constructor
        · intro _
          exact ⟨w, Nat.le_refl w, Nat.lt_min.mpr ⟨by omega, hw⟩, hr⟩
        · intro _; trivial
      · have hr' : otpValueReady (p w) = false := by
          cases h : otpValueReady (p w)
          · rfl
          · exact absurd h hr
        simp only [otpWaitAux, if_pos hw, hr', Bool.false_eq_true, if_neg,
          if_false]
        rw [ih (w + 1)]
        constructor
        · rintro ⟨i, h1, h2, h3⟩
          rw [Nat.lt_min] at h2
          exact ⟨i, by omega, Nat.lt_min.mpr ⟨by omega, h2.2⟩, h3⟩
        · rintro ⟨i, h1, h2, h3⟩
          rw [Nat.lt_min] at h2
          rcases Nat.eq_or_lt_of_le h1 with h | h
          · subst h
            exact absurd h3 hr
          · exact ⟨i, by omega, Nat.lt_min.mpr ⟨by omega, h2.2⟩, h3⟩
    · simp only [otpWaitAux, if_neg hw]
      constructor
      · intro h; exact absurd h (by simp)
      · rintro ⟨i, h1, h2, _⟩
        rw [Nat.lt_min] at h2
        omega

/-- C1 (corrected): on the manual-OTP path the verify/submit action is
issued exactly once whether or not the wait loop saw a ready value; the
loop's break flag is set exactly when some poll index below 60 saw a value
that is nonempty and at least 4 characters long after stripping
surrounding whitespace.  (When the 60-second window elapses without such a
value, the code does NOT return false without submitting: the same single
verify click or Enter press still happens and `perform_login` falls
through to the outcome heuristic.) -/
theorem otp_manual_wait_always_submits_once (p : Nat → String)
    (vb : Bool) :
    (otpManualWait p vb).submitActions = 1 ∧
    ((otpManualWait p vb).found = true ↔
      ∃ i, i < 60 ∧ otpValueReady (p i) = true) := by
  constructor
  · cases vb <;> simp [otpManualWait, OtpManualOutcome.submitActions]
  · have h := otpWaitAux_found_iff p 60 0
    have hfound : (otpManualWait p vb).found = (otpWaitAux p 0 60).2 := by
      cases vb <;> simp [otpManualWait]
    rw [hfound, h]
    constructor
    · rintro ⟨i, _, h2, h3⟩
      rw [Nat.lt_min] at h2
      exact ⟨i, h2.2, h3⟩
    · rintro ⟨i, h1, h2⟩
      exact ⟨i, Nat.zero_le i, Nat.lt_min.mpr ⟨by omega, h1⟩, h2⟩

/-- C1 counterexample: with an OTP field whose value never becomes ready
(the provider always returns the empty string) and a verify button
present, the timeout elapses (`found = false`), yet the verify/submit
action is still invoked once — not never — and `perform_login` returns the
heuristic's verdict `true` (the post-submit URL differs from the target),
not `false`. -/
theorem otp_timeout_still_submits_counterexample :
    ((perform_login_manual_otp (fun _ => "") true
        "https://app/dashboard" "https://app/login" "").2).found = false ∧
    ((perform_login_manual_otp (fun _ => "") true
        "https://app/dashboard" "https://app/login" "").2).submitActions = 1 ∧
    (perform_login_manual_otp (fun _ => "") true
        "https://app/dashboard" "https://app/login" "").1 = true := by
  refine ⟨?_, ?_, ?_⟩ <;> decide

/-- Each traversal step grows the visited and form-level lists by at most
one element. -/
theorem levelFold_lengths (navOk : String → Bool)
    (formsAt : String → List FormSnapshot) (inputCountAt : String → Nat) :
    ∀ (l : List (Nat × LevelLink)) (st : String × List String × List FormLevel),
      ((l.foldl (levelStep navOk formsAt inputCountAt) st).2.1).length ≤
          st.2.1.length + l.length ∧
        ((l.foldl (levelStep navOk formsAt inputCountAt) st).2.2).length ≤
          st.2.2.length + l.length := by
  intro l
  induction l with
  | nil => intro st; simp
  | cons a t ih =>
    intro st
    rw [List.foldl_cons]
    have h := ih (levelStep navOk formsAt inputCountAt st a)
    have hstep :
        ((levelStep navOk formsAt inputCountAt st a).2.1).length ≤ st.2.1.length + 1 ∧
        ((levelStep navOk formsAt inputCountAt st a).2.2).length ≤ st.2.2.length + 1 := by
      unfold levelStep
      split <;> simp
    have h1 := h.1
    have h2 := h.2
    have hs1 := hstep.1
    have hs2 := hstep.2
    simp only [List.length_cons]
    exact ⟨by omega, by omega⟩

/-- C3 (corrected): the multi-level traversal visits at most 5 discovered
level links and records at most 5 form levels, no matter how many links
matched; and whenever the final restore navigation to the original URL
succeeds, the page URL is restored to its pre-traversal value — including
when navigation to individual levels failed.  (If the restore navigation
itself fails, the failure is swallowed and the page can be left on a level
URL; restoration is attempted, not guaranteed.) -/
theorem form_levels_traverse_bounded_and_restores (navOk : String → Bool)
    (formsAt : String → List FormSnapshot) (inputCountAt : String → Nat)
    (original_url : String) (level_links : List LevelLink) :
    (navOk original_url = true →
      (detect_form_levels_traverse navOk formsAt inputCountAt original_url
        level_links).final_url = original_url) ∧
    (detect_form_levels_traverse navOk formsAt inputCountAt original_url
        level_links).visited.length ≤ 5 ∧
    (detect_form_levels_traverse navOk formsAt inputCountAt original_url
        level_links).form_levels.length ≤ 5 := by
  unfold detect_form_levels_traverse
  split
  · exact ⟨fun _ => rfl, by simp, by simp⟩
  · have h := levelFold_lengths navOk formsAt inputCountAt
      ((level_links.take 5).enum) (original_url, [], [])
    have hlen : ((level_links.take 5).enum).length ≤ 5 := by
      rw [List.enum_length]
      exact le_trans (List.length_take_le 5 level_links) (Nat.le_refl 5)
    refine ⟨fun hn => ?_, ?_, ?_⟩
    · simp only [hn, if_true]
    · have h1 := h.1
      dsimp only at h1 ⊢
      simp only [List.length_nil, Nat.zero_add] at h1
      omega
    · have h2 := h.2
      dsimp only at h2 ⊢
      simp only [List.length_nil, Nat.zero_add] at h2
      omega

/-- C3 witness: with the original URL reachable, a failing first level and
a succeeding second level, the traversal ends back on the original URL and
respects the 5-level bound. -/
theorem form_levels_traverse_witness :
    (detect_form_levels_traverse navOkW (fun _ => []) (fun _ => 0)
        "http://s/home" levelLinksW).final_url = "http://s/home" ∧
    (detect_form_levels_traverse navOkW (fun _ => []) (fun _ => 0)
        "http://s/home" levelLinksW).visited.length ≤ 5 ∧
    (detect_form_levels_traverse navOkW (fun _ => []) (fun _ => 0)
        "http://s/home" levelLinksW).form_levels.length ≤ 5 := by
  have h := form_levels_traverse_bounded_and_restores navOkW (fun _ => [])
    (fun _ => 0) "http://s/home" levelLinksW
  exact ⟨h.1 (by decide), h.2.1, h.2.2⟩

/-- C3 counterexample: when the restore navigation to the original URL
fails (swallowed by the bare `except: pass` of lines 639-640), the
traversal returns with the page still on the level URL, so `currentUrl` is
NOT always restored to its pre-traversal value. -/
theorem form_levels_traverse_restore_can_fail :
    (detect_form_levels_traverse navOkCE (fun _ => []) (fun _ => 0)
        "http://s/home" [levelLinkCE]).final_url ≠ "http://s/home" := by
  decide

/-- The max-length edge test is not an empty-required test. -/
theorem isEmptyRequiredTC_max (cfg : EngineConfig) (n : String) :
    isEmptyRequiredTC (edge_max_length_case cfg n) = false := rfl

/-- The empty-required edge test carries category `required_field`. -/
theorem isEmptyRequiredTC_empty (cfg : EngineConfig) (n : String) :
    isEmptyRequiredTC (edge_empty_required_case cfg n) = true := rfl

/-- The special-characters edge test is not an empty-required test. -/
theorem isEmptyRequiredTC_special (cfg : EngineConfig) (n : String) :
    isEmptyRequiredTC (edge_special_chars_case cfg n) = false := rfl

/-- The pagination edge test is not an empty-required test. -/
theorem isEmptyRequiredTC_pagination (cfg : EngineConfig) (t : TableDetail) :
    isEmptyRequiredTC (edge_table_pagination_case cfg t) = false := rfl

/-- The rapid-clicks edge test is not an empty-required test. -/
theorem isEmptyRequiredTC_rapid (cfg : EngineConfig) :
    isEmptyRequiredTC (edge_rapid_clicks_case cfg) = false := rfl

/-- The session-timeout edge test is not an empty-required test. -/
theorem isEmptyRequiredTC_session :
    isEmptyRequiredTC edge_session_timeout_case = false := rfl

/-- One field of the first-10 loop contributes exactly one empty-required
test when it is an eligible (text/number/email) required field, and none
otherwise. -/
theorem countP_edge_field (cfg : EngineConfig) (inp : Field) :
    (edge_field_cases cfg inp).countP isEmptyRequiredTC =
      if isEdgeRequiredField inp then 1 else 0 := by
  unfold edge_field_cases isEdgeRequiredField
  cases he : ["text", "number", "email"].contains inp.type <;>
    cases hr : inp.required <;>
    simp [List.countP_append, List.countP_cons,
      isEmptyRequiredTC_max, isEmptyRequiredTC_empty, isEmptyRequiredTC_special]

/-- Summing the per-field contribution over a field list counts exactly
the eligible required fields. -/
theorem sum_edge_fields (cfg : EngineConfig) :
    ∀ l : List Field,
      ((l.map (edge_field_cases cfg)).flatten).countP isEmptyRequiredTC =
        (l.filter isEdgeRequiredField).length := by
  intro l
  induction l with
  | nil => simp
  | cons a t ih =>
    rw [List.map_cons, List.flatten_cons, List.countP_append,
      countP_edge_field, ih]
    cases hq : isEdgeRequiredField a
    · simp [List.filter_cons, hq]
    · simp [List.filter_cons, hq, Nat.add_comm]

/-- The pagination edge tests contribute no empty-required tests. -/
theorem countP_edge_tables (cfg : EngineConfig) :
    ∀ l : List TableDetail,
      ((l.map (fun t =>
          if t.pagination.exists_ then [edge_table_pagination_case cfg t]
          else [])).flatten).countP isEmptyRequiredTC = 0 := by
  intro l
  induction l with
  | nil => simp
  | cons a t ih =>
    rw [List.map_cons, List.flatten_cons, List.countP_append, ih]
    split <;> simp [List.countP_cons, isEmptyRequiredTC_pagination]

/-- C5 (corrected): the number of empty-required-field tests in the
edge_case category equals the number of REQUIRED fields of type
text/number/email among the FIRST 10 input fields of the snapshot — not
`min(N, 10)` for the total number N of required fields: required fields of
other types, and required fields beyond the first ten, generate no such
test. -/
theorem edge_case_empty_required_count (cfg : EngineConfig)
    (d : DetectedElements) :
    (generate_edge_case_tests cfg d).countP isEmptyRequiredTC =
      ((d.input_fields.take 10).filter isEdgeRequiredField).length := by
  unfold generate_edge_case_tests
  rw [List.countP_append, List.countP_append, List.countP_append,
    sum_edge_fields, countP_edge_tables]
  have h3 : (if d.buttons.isEmpty then ([] : List TestCase)
      else [edge_rapid_clicks_case cfg]).countP isEmptyRequiredTC = 0 := by
    split <;> simp [List.countP_cons, isEmptyRequiredTC_rapid]
  have h4 : (if credsGiven cfg then [edge_session_timeout_case]
      else ([] : List TestCase)).countP isEmptyRequiredTC = 0 := by
    split <;> simp [List.countP_cons, isEmptyRequiredTC_session]
  omega

/-- C5 counterexample: a snapshot whose single input field is a REQUIRED
password field has N = 1 required fields, so the claim demands
min(1, 10) = 1 empty-required tests, but the edge_case category contains
none (password fields are not eligible for the first-10 loop). -/
theorem edge_case_min_formula_counterexample :
    dC5.input_fields.countP (fun f => f.required) = 1 ∧
    min (dC5.input_fields.countP (fun f => f.required)) 10 = 1 ∧
    (generate_edge_case_tests cfg9 dC5).countP isEmptyRequiredTC = 0 := by
  refine ⟨?_, ?_, ?_⟩ <;> decide

/-- Erasing the status key makes the login test case independent of the
live login result. -/
theorem eraseStatus_pos_login (cfg : EngineConfig) (b b' : Bool) :
    eraseStatusTC (pos_login_case cfg b) = eraseStatusTC (pos_login_case cfg b') := by
  cases b <;> cases b' <;> rfl

/-- C2 (corrected): with the `status` key of every test case erased, the
whole generated suite is a pure function of the snapshot and the
credentials — the live login result influences nothing else.  Together
with the counterexample below this locates the exact failure of the purity
claim: the POS_LOGIN_001 body records the result of the live login
attempt. -/
theorem generate_all_tests_pure_modulo_login_status (cfg : EngineConfig)
    (d : DetectedElements) (b1 b2 : Bool) :
    eraseStatusSuite (generate_all_tests cfg d b1) =
      eraseStatusSuite (generate_all_tests cfg d b2) := by
  unfold generate_all_tests eraseStatusSuite
  rw [TestSuite.mk.injEq]
  refine ⟨?_, rfl, rfl, rfl, rfl, rfl, rfl⟩
  unfold generate_positive_test_cases
  rw [List.map_append, List.map_append, List.map_append, List.map_append]
  congr 2
  by_cases hc : credsGiven cfg = true
  · simp only [hc, if_true, List.map_cons, List.map_nil]
    rw [eraseStatus_pos_login cfg b1 b2]
  · simp [hc]

/-- C2 counterexample: two runs over the identical snapshot and identical
credentials, differing only in the outcome of the live login attempt,
produce different positive-category output (the status key of
POS_LOGIN_001 records PASS vs FAIL), so `synthesize` is not a pure
function of `(DetectedElements, Credentials)` and its output is not
byte-identical across such calls. -/
theorem generate_positive_depends_on_live_login :
    generate_positive_test_cases cfg9 d9 true ≠
      generate_positive_test_cases cfg9 d9 false := by
  decide

/-- C9 (corrected): for the end-to-end scenario snapshot, the positive
category is exactly {POS_LOGIN_001, POS_INPUT_email} and the functional
category is exactly 2 navigation tests, 0 button tests, 0 form tests, 1
input test and the fixed performance test, as claimed; but the negative
category additionally contains the two security-payload tests for the
email field (9 tests, not 7), and the ui category additionally contains a
test for the password input (1 button + 2 input + 2 page tests, not 1
input test). -/
theorem end_to_end_scenario_actual (b : Bool) :
    ((generate_positive_test_cases cfg9 d9 b).map (fun t => t.test_id) =
      ["POS_LOGIN_001", "POS_INPUT_email"]) ∧
    ((generate_negative_test_cases d9).map (fun t => t.test_id) =
      ["NEG_LOGIN_001", "NEG_LOGIN_002", "NEG_LOGIN_003", "NEG_LOGIN_004",
       "NEG_LOGIN_005", "NEG_INPUT_email_EMPTY", "NEG_INPUT_email_BOUNDARY",
       "NEG_SECURITY_EMAIL_SQLI", "NEG_SECURITY_EMAIL_XSS"]) ∧
    ((generate_ui_test_cases d9).map (fun t => t.test_id) =
      ["UI_BUTTON_Login", "UI_INPUT_email", "UI_INPUT_password",
       "UI_PAGE_001", "UI_PAGE_002"]) ∧
    ((generate_functional_test_cases cfg9 d9).map (fun t => t.test_id) =
      ["FUNC_NAV_About_Us", "FUNC_NAV_Contact", "FUNC_INPUT_email",
       "FUNC_PERF_001"]) := by
  cases b <;> exact ⟨rfl, rfl, rfl, rfl⟩

/-- C9 counterexample: the negative category of the end-to-end scenario
holds 9 tests (including NEG_SECURITY_EMAIL_SQLI), not exactly the claimed
5 + 2; the ui category holds 5 tests (including UI_INPUT_password for the
password field), not exactly the claimed 1 button + 1 input + 2 page
tests. -/
theorem end_to_end_scenario_claim_counterexample :
    (generate_negative_test_cases d9).length = 9 ∧
    ((generate_negative_test_cases d9).map (fun t => t.test_id)).contains
      "NEG_SECURITY_EMAIL_SQLI" = true ∧
    (generate_ui_test_cases d9).length = 5 ∧
    ((generate_ui_test_cases d9).map (fun t => t.test_id)).contains
      "UI_INPUT_password" = true := by
  refine ⟨?_, ?_, ?_, ?_⟩ <;> decide

/-- `addToModule` updates exactly the entry of its own key. -/
theorem lookupModule_addToModule (mt : String) (link : NavLink) :
    ∀ (dm : List (String × ErpModule)) (k : String),
      lookupModule (addToModule dm mt link) k =
        if k = mt then some (updateModule mt link (lookupModule dm mt))
        else lookupModule dm k := by
  intro dm
  induction dm with
  | nil =>
    intro k
    by_cases hk : k = mt
    · subst hk
      simp [addToModule, lookupModule, updateModule]
    · simp [addToModule, lookupModule, hk,
        show ¬(mt = k) from fun h => hk h.symm]
  | cons hd tl ih =>
    intro k
    obtain ⟨k0, m0⟩ := hd
    by_cases h0 : k0 = mt
    · subst h0
      by_cases hk : k0 = k
      · subst hk
        simp [addToModule, lookupModule, updateModule]
      · simp [addToModule, lookupModule, hk,
          show ¬(k = k0) from fun h => hk h.symm]
    · by_cases hk : k0 = k
      · subst hk
        simp [addToModule, lookupModule, h0,
          show ¬(k0 = mt) from h0]
      · simp [addToModule, lookupModule, h0, hk, ih]

/-- Folding the keyword table for one link leaves the entries of keys not
in the table untouched. -/
theorem lookupModule_tableFold_notmem (link : NavLink) :
    ∀ (tbl : List (String × List String)) (dm : List (String × ErpModule))
      (mt : String), mt ∉ tbl.map (fun p => p.1) →
      lookupModule
        (tbl.foldl (fun dm p =>
          if moduleMatches p.2 link then addToModule dm p.1 link else dm) dm)
        mt = lookupModule dm mt := by
  intro tbl
  induction tbl with
  | nil => intro dm mt _; rfl
  | cons hd tl ih =>
    intro dm mt hmem
    rw [List.foldl_cons]
    have h1 : mt ∉ tl.map (fun p => p.1) :=
      fun h => hmem (List.mem_cons_of_mem _ h)
    have h0 : ¬(mt = hd.1) := fun h => hmem (by simp [h])
    rw [ih _ _ h1]
    split
    · rw [lookupModule_addToModule, if_neg h0]
    · rfl

/-- Folding the keyword table for one link updates the entry of every key
whose keyword set the link matches, and no other entry (table keys
distinct). -/
theorem lookupModule_tableFold (link : NavLink) :
    ∀ (tbl : List (String × List String)),
      (tbl.map (fun p => p.1)).Nodup →
      ∀ (dm : List (String × ErpModule)) (mt : String) (kws : List String),
        (mt, kws) ∈ tbl →
        lookupModule
          (tbl.foldl (fun dm p =>
            if moduleMatches p.2 link then addToModule dm p.1 link else dm) dm)
          mt =
          (if moduleMatches kws link then
            some (updateModule mt link (lookupModule dm mt))
          else lookupModule dm mt) := by
  intro tbl
  induction tbl with
  | nil => intro _ dm mt kws h; exact absurd h (List.not_mem_nil _)
  | cons hd tl ih =>
    intro hnd dm mt kws hmem
    rw [List.foldl_cons]
    rcases List.mem_cons.mp hmem with h | h
    · subst h
      have hnotin : mt ∉ tl.map (fun p => p.1) :=
        (List.nodup_cons.mp (by simpa using hnd)).1
      rw [lookupModule_tableFold_notmem link tl _ mt hnotin]
      dsimp only
      split
      · rw [lookupModule_addToModule, if_pos rfl]
      · rfl
    · have hd1mem : hd.1 ∉ tl.map (fun p => p.1) :=
        (List.nodup_cons.mp (by simpa using hnd)).1
      have hk0 : hd.1 ≠ mt := by
        intro hEq
        exact hd1mem (hEq ▸ List.mem_map.mpr ⟨(mt, kws), h, rfl⟩)
      have hnd' : (tl.map (fun p => p.1)).Nodup :=
        (List.nodup_cons.mp (by simpa using hnd)).2
      have hstep :
          lookupModule
            (if moduleMatches hd.2 link then addToModule dm hd.1 link else dm)
            mt = lookupModule dm mt := by
        split
        · rw [lookupModule_addToModule, if_neg (fun hh => hk0 hh.symm)]
        · rfl
      rw [ih hnd' _ mt kws h]
      rw [hstep]

/-- Processing the collected links accumulates, for every keyword-table
key, exactly the matched links in order. -/
theorem lookupModule_detect_dict (mt : String) (kws : List String)
    (hmem : (mt, kws) ∈ erp_module_keywords) :
    ∀ (links : List NavLink) (dm : List (String × ErpModule)),
      lookupModule (links.foldl classifyLink dm) mt =
        applyMatched mt (matchedLinks kws links) (lookupModule dm mt) := by
  have hnd : (erp_module_keywords.map (fun p => p.1)).Nodup := by decide
  intro links
  induction links with
  | nil => intro dm; rfl
  | cons l rest ih =>
    intro dm
    rw [List.foldl_cons, ih (classifyLink dm l)]
    have hcl : lookupModule (classifyLink dm l) mt =
        (if moduleMatches kws l then
          some (updateModule mt l (lookupModule dm mt))
        else lookupModule dm mt) := by
      unfold classifyLink
      exact lookupModule_tableFold l erp_module_keywords hnd dm mt kws hmem
    rw [hcl]
    unfold matchedLinks
    rw [List.filter_cons]
    cases hm : moduleMatches kws l
    · simp only [hm, Bool.false_eq_true, if_false]
    · simp only [hm, if_true]
      rfl

/-- Append characterization of iterated module updates. -/
theorem applyMatched_some (mt : String) :
    ∀ (ls : List NavLink) (nm : String) (acc : List NavLink),
      applyMatched mt ls (some { name := nm, links := acc, count := acc.length }) =
        some { name := nm, links := acc ++ ls, count := (acc ++ ls).length } := by
  intro ls
  induction ls with
  | nil => intro nm acc; simp [applyMatched]
  | cons l t ih =>
    intro nm acc
    have h0 : applyMatched mt (l :: t)
        (some { name := nm, links := acc, count := acc.length }) =
        applyMatched mt t (some (updateModule mt l
          (some { name := nm, links := acc, count := acc.length }))) := rfl
    rw [h0]
    have h1 : updateModule mt l
        (some { name := nm, links := acc, count := acc.length }) =
        { name := nm, links := acc ++ [l], count := (acc ++ [l]).length } := by
      simp [updateModule]
    rw [h1, ih]
    simp

/-- Starting from an absent entry, iterated updates build exactly the
record {title-cased key, all added links, their number}. -/
theorem applyMatched_none (mt : String) :
    ∀ ls : List NavLink, ls ≠ [] →
      applyMatched mt ls none =
        some { name := pyTitleWord mt, links := ls, count := ls.length } := by
  intro ls h
  cases ls with
  | nil => exact absurd rfl h
  | cons l t =>
    have h0 : applyMatched mt (l :: t) none =
        applyMatched mt t (some (updateModule mt l none)) := rfl
    have h1 : updateModule mt l none =
        { name := pyTitleWord mt, links := [l], count := [l].length } := rfl
    rw [h0, h1, applyMatched_some]
    simp

/-- C4 (corrected): a navigation link is grouped under EVERY module
category whose keyword set its text matches — the inner keyword loop has
no break, so the first matching category does not win exclusively.  For
every key of the fixed table, the resulting dict entry holds exactly the
links that match that category's keywords, in collection order, with the
count equal to the number of matched links (and no entry when no link
matched). -/
theorem detect_erp_modules_every_matching_category (links : List NavLink)
    (mt : String) (kws : List String)
    (hmem : (mt, kws) ∈ erp_module_keywords) :
    lookupModule (detect_erp_modules_dict links) mt =
      (if matchedLinks kws links = [] then none
       else some { name := pyTitleWord mt, links := matchedLinks kws links,
                   count := (matchedLinks kws links).length }) := by
  unfold detect_erp_modules_dict
  rw [lookupModule_detect_dict mt kws hmem links []]
  have h0 : lookupModule [] mt = none := rfl
  rw [h0]
  split
  · rename_i h; rw [h]; rfl
  · rename_i h; exact applyMatched_none mt _ h

/-- C4 witness: the student/teacher link is recorded under the teacher
category with count 1. -/
theorem detect_erp_modules_matching_category_witness :
    lookupModule (detect_erp_modules_dict [stLink]) "teacher" =
      (if matchedLinks ["teacher", "faculty", "staff", "instructor"] [stLink] = [] then none
       else some { name := pyTitleWord "teacher"
                 , links := matchedLinks ["teacher", "faculty", "staff", "instructor"] [stLink]
                 , count := (matchedLinks ["teacher", "faculty", "staff", "instructor"] [stLink]).length }) :=
  detect_erp_modules_every_matching_category [stLink] "teacher"
    ["teacher", "faculty", "staff", "instructor"] (by decide)

/-- C4 counterexample: a single link whose text is "student teacher
portal" is classified into BOTH the Student and the Teacher modules, so a
link can match more than one module and the first matching category does
not win. -/
theorem detect_erp_modules_link_in_two_modules :
    detect_erp_modules [stLink] =
      [ { name := "Student", links := [stLink], count := 1 }
      , { name := "Teacher", links := [stLink], count := 1 } ] ∧
    2 ≤ ((detect_erp_modules [stLink]).filter
          (fun m => m.links.contains stLink)).length := by
  refine ⟨?_, ?_⟩ <;> decide

/-! Helper lemmas for the sanitizer (claim C6). -/

/-- `dropWhile` is the identity when the head does not satisfy the
predicate. -/
theorem dropWhile_eq_self_of_head (p : Char → Bool) (l : List Char)
    (h : ∀ c, l.head? = some c → p c = false) : l.dropWhile p = l := by
  cases l with
  | nil => rfl
  | cons a t =>
    rw [List.dropWhile_cons, h a rfl]
    simp

/-- Two-sided strip is the identity when no character satisfies the
predicate. -/
theorem pyStripList_eq_self_of_all (p : Char → Bool) (l : List Char)
    (h : ∀ c ∈ l, p c = false) : pyStripList p l = l := by
  unfold pyStripList
  have h1 : l.dropWhile p = l := by
    apply dropWhile_eq_self_of_head
    intro c hc
    apply h
    cases l with
    | nil => simp at hc
    | cons a t =>
      rw [List.head?_cons] at hc
      cases hc
      exact List.mem_cons_self _ _
  rw [h1]
  have h2 : l.reverse.dropWhile p = l.reverse := by
    apply dropWhile_eq_self_of_head
    intro c hc
    apply h
    rw [← List.mem_reverse]
    cases hrev : l.reverse with
    | nil => rw [hrev] at hc; simp at hc
    | cons a t =>
      rw [hrev] at hc
      rw [List.head?_cons] at hc
      cases hc
      exact List.mem_cons_self _ _
  rw [h2, List.reverse_reverse]

/-- Two-sided strip is the identity when neither end character satisfies
the predicate. -/
theorem pyStripList_eq_self_of_ends (p : Char → Bool) (l : List Char)
    (hh : ∀ c, l.head? = some c → p c = false)
    (hl : ∀ c, l.getLast? = some c → p c = false) : pyStripList p l = l := by
  unfold pyStripList
  rw [dropWhile_eq_self_of_head p l hh]
  rw [dropWhile_eq_self_of_head p l.reverse
    (fun c hc => hl c (by rwa [List.head?_reverse] at hc))]
  exact List.reverse_reverse l

/-- The head of a `dropWhile` result does not satisfy the predicate. -/
theorem head?_dropWhile_not (p : Char → Bool) :
    ∀ (l : List Char) (c : Char), (l.dropWhile p).head? = some c →
      p c = false := by
  intro l
  induction l with
  | nil => intro c h; simp at h
  | cons a t ih =>
    intro c h
    rw [List.dropWhile_cons] at h
    by_cases hp : p a = true
    · rw [if_pos hp] at h
      exact ih c h
    · rw [if_neg hp] at h
      rw [List.head?_cons] at h
      cases h
      cases hb : p a
      · rfl
      · exact absurd hb hp

/-- Strip results are members of the original list. -/
theorem mem_of_mem_pyStripList (p : Char → Bool) (l : List Char) (c : Char)
    (h : c ∈ pyStripList p l) : c ∈ l := by
  unfold pyStripList at h
  rw [List.mem_reverse] at h
  have h1 := (List.dropWhile_sublist (l := (l.dropWhile p).reverse)
    (p := p)).subset h
  rw [List.mem_reverse] at h1
  exact (List.dropWhile_sublist (l := l) (p := p)).subset h1

/-- The strip result is a contiguous fragment of the input. -/
theorem pyStripList_contiguous (p : Char → Bool) (l : List Char) :
    pyStripList p l <:+: l := by
  have h1 : l.dropWhile p <:+ l := List.dropWhile_suffix p
  have h2 : (pyStripList p l).reverse <:+ (l.dropWhile p).reverse := by
    unfold pyStripList
    rw [List.reverse_reverse]
    exact List.dropWhile_suffix p
  have h3 : pyStripList p l <+: l.dropWhile p :=
    List.reverse_suffix.mp h2
  exact List.IsInfix.trans ( List.IsPrefix.isInfix h3) ( List.IsSuffix.isInfix h1)

/-- The head of a strip result does not satisfy the predicate. -/
theorem head?_pyStripList_not (p : Char → Bool) (l : List Char) (c : Char)
    (h : (pyStripList p l).head? = some c) : p c = false := by
  have hpre : pyStripList p l <+: l.dropWhile p := by
    apply List.reverse_suffix.mp
    unfold pyStripList
    rw [List.reverse_reverse]
    exact List.dropWhile_suffix p
  obtain ⟨t, ht⟩ := hpre
  apply head?_dropWhile_not p l c
  rw [← ht]
  cases hr : pyStripList p l with
  | nil => rw [hr] at h; simp at h
  | cons x xs =>
    rw [hr] at h
    rw [List.head?_cons] at h
    cases h
    rfl

/-- The last element of a strip result does not satisfy the predicate. -/
theorem getLast?_pyStripList_not (p : Char → Bool) (l : List Char) (c : Char)
    (h : (pyStripList p l).getLast? = some c) : p c = false := by
  have hrev : (pyStripList p l).reverse = (l.dropWhile p).reverse.dropWhile p := by
    unfold pyStripList
    rw [List.reverse_reverse]
  apply head?_dropWhile_not p (l.dropWhile p).reverse c
  rw [← hrev, List.head?_reverse]
  exact h

/-- `collapseUnd` only keeps characters of its input. -/
theorem collapseUnd_subset : ∀ l : List Char, collapseUnd l ⊆ l := by
  intro l
  induction l with
  | nil => simp [collapseUnd]
  | cons a t ih =>
    cases t with
    | nil => simp [collapseUnd]
    | cons b t2 =>
      simp only [collapseUnd]
      split
      · exact fun c hc => List.mem_cons_of_mem a (ih hc)
      · intro c hc
        rcases List.mem_cons.mp hc with h | h
        · exact h ▸ List.mem_cons_self _ _
        · exact List.mem_cons_of_mem a (ih h)

/-- `collapseUnd` preserves the head. -/
theorem collapseUnd_head? : ∀ l : List Char, (collapseUnd l).head? = l.head? := by
  intro l
  induction l with
  | nil => rfl
  | cons a t ih =>
    cases t with
    | nil => rfl
    | cons b t2 =>
      simp only [collapseUnd]
      split
      · rename_i hcond
        have hab : a = '_' ∧ b = '_' := by simpa using hcond
        rw [ih, List.head?_cons, List.head?_cons, hab.1, hab.2]
      · rw [List.head?_cons, List.head?_cons]

/-- `collapseUnd` leaves no two adjacent underscores. -/
theorem collapseUnd_chain' :
    ∀ l : List Char,
      (collapseUnd l).Chain' (fun a b => ¬(a = '_' ∧ b = '_')) := by
  intro l
  induction l with
  | nil => simp [collapseUnd]
  | cons a t ih =>
    cases t with
    | nil => simp [collapseUnd]
    | cons b t2 =>
      simp only [collapseUnd]
      split
      · exact ih
      · rename_i hcond
        rw [List.chain'_cons']
        refine ⟨?_, ih⟩
        intro y hy
        have hh : (collapseUnd (b :: t2)).head? = some b := by
          rw [collapseUnd_head?, List.head?_cons]
        rw [hh, Option.mem_def] at hy
        cases hy
        intro hab
        exact hcond (by simp [hab.1, hab.2])

/-- `collapseUnd` is the identity on lists without adjacent
underscores. -/
theorem collapseUnd_eq_self_of_chain' :
    ∀ l : List Char,
      l.Chain' (fun a b => ¬(a = '_' ∧ b = '_')) → collapseUnd l = l := by
  intro l
  induction l with
  | nil => intro _; rfl
  | cons a t ih =>
    cases t with
    | nil => intro _; rfl
    | cons b t2 =>
      intro hch
      have h1 := (List.chain'_cons.mp hch).1
      have h2 := (List.chain'_cons.mp hch).2
      simp only [collapseUnd]
      rw [if_neg (fun hc => h1 (by simpa using hc))]
      rw [ih h2]

/-- The substitution keeps only alphanumerics and underscores. -/
theorem pySub_mem (l : List Char) (c : Char) (h : c ∈ pySubNonAlnumToUnd l) :
    isAsciiAlnum c = true ∨ c = '_' := by
  unfold pySubNonAlnumToUnd at h
  rcases List.mem_map.mp h with ⟨c0, _, hc0⟩
  by_cases ha : isAsciiAlnum c0 = true
  · left; rw [← hc0, if_pos ha]; exact ha
  · right; rw [← hc0, if_neg ha]

/-- The substitution is the identity on strings of alphanumerics and
underscores. -/
theorem pySub_eq_self (l : List Char)
    (h : ∀ c ∈ l, isAsciiAlnum c = true ∨ c = '_') :
    pySubNonAlnumToUnd l = l := by
  unfold pySubNonAlnumToUnd
  have hcong : ∀ c ∈ l, (if isAsciiAlnum c then c else '_') = id c := by
    intro c hc
    rcases h c hc with hc' | hc'
    · simp [hc']
    · subst hc'
      simp
  rw [List.map_congr_left hcong, List.map_id]

/-- `pyToUpperChar` fixes every character that is not a lowercase ASCII
letter. -/
theorem pyToUpperChar_eq_self (c : Char) (h : c ∉ lowerAscii) :
    pyToUpperChar c = c := by
  unfold pyToUpperChar
  have h1 : ¬ c = 'a' := fun hh => h (by rw [hh]; decide)
  have h2 : ¬ c = 'b' := fun hh => h (by rw [hh]; decide)
  have h3 : ¬ c = 'c' := fun hh => h (by rw [hh]; decide)
  have h4 : ¬ c = 'd' := fun hh => h (by rw [hh]; decide)
  have h5 : ¬ c = 'e' := fun hh => h (by rw [hh]; decide)
  have h6 : ¬ c = 'f' := fun hh => h (by rw [hh]; decide)
  have h7 : ¬ c = 'g' := fun hh => h (by rw [hh]; decide)
  have h8 : ¬ c = 'h' := fun hh => h (by rw [hh]; decide)
  have h9 : ¬ c = 'i' := fun hh => h (by rw [hh]; decide)
  have h10 : ¬ c = 'j' := fun hh => h (by rw [hh]; decide)
  have h11 : ¬ c = 'k' := fun hh => h (by rw [hh]; decide)
  have h12 : ¬ c = 'l' := fun hh => h (by rw [hh]; decide)
  have h13 : ¬ c = 'm' := fun hh => h (by rw [hh]; decide)
  have h14 : ¬ c = 'n' := fun hh => h (by rw [hh]; decide)
  have h15 : ¬ c = 'o' := fun hh => h (by rw [hh]; decide)
  have h16 : ¬ c = 'p' := fun hh => h (by rw [hh]; decide)
  have h17 : ¬ c = 'q' := fun hh => h (by rw [hh]; decide)
  have h18 : ¬ c = 'r' := fun hh => h (by rw [hh]; decide)
  have h19 : ¬ c = 's' := fun hh => h (by rw [hh]; decide)
  have h20 : ¬ c = 't' := fun hh => h (by rw [hh]; decide)
  have h21 : ¬ c = 'u' := fun hh => h (by rw [hh]; decide)
  have h22 : ¬ c = 'v' := fun hh => h (by rw [hh]; decide)
  have h23 : ¬ c = 'w' := fun hh => h (by rw [hh]; decide)
  have h24 : ¬ c = 'x' := fun hh => h (by rw [hh]; decide)
  have h25 : ¬ c = 'y' := fun hh => h (by rw [hh]; decide)
  have h26 : ¬ c = 'z' := fun hh => h (by rw [hh]; decide)
  rw [if_neg h1, if_neg h2, if_neg h3, if_neg h4, if_neg h5, if_neg h6,
    if_neg h7, if_neg h8, if_neg h9, if_neg h10, if_neg h11, if_neg h12,
    if_neg h13, if_neg h14, if_neg h15, if_neg h16, if_neg h17, if_neg h18,
    if_neg h19, if_neg h20, if_neg h21, if_neg h22, if_neg h23, if_neg h24,
    if_neg h25, if_neg h26]

/-- Upper-casing preserves ASCII alphanumerics. -/
theorem pyToUpperChar_alnum (c : Char) (h : isAsciiAlnum c = true) :
    isAsciiAlnum (pyToUpperChar c) = true := by
  by_cases hm : c ∈ lowerAscii
  · fin_cases hm <;> decide
  · rw [pyToUpperChar_eq_self c hm]; exact h

/-- Upper-casing maps only the underscore to the underscore. -/
theorem pyToUpperChar_eq_underscore_iff (c : Char) :
    pyToUpperChar c = '_' ↔ c = '_' := by
  by_cases hm : c ∈ lowerAscii
  · fin_cases hm <;> decide
  · rw [pyToUpperChar_eq_self c hm]

/-- Upper-casing is idempotent. -/
theorem pyToUpperChar_idem (c : Char) :
    pyToUpperChar (pyToUpperChar c) = pyToUpperChar c := by
  by_cases hm : c ∈ lowerAscii
  · fin_cases hm <;> decide
  · rw [pyToUpperChar_eq_self c hm, pyToUpperChar_eq_self c hm]

/-- Alphanumerics and the underscore are not whitespace. -/
theorem not_ws_of_alnum_or_und (c : Char)
    (h : isAsciiAlnum c = true ∨ c = '_') : pyIsWs c = false := by
  rcases h with h | h
  · cases hb : pyIsWs c
    · rfl
    · have hc : ((((c = ' ' ∨ c = '\t') ∨ c = '\n') ∨ c = '\r') ∨
          c = '\x0b') ∨ c = '\x0c' := by
        simpa [pyIsWs] using hb
      rcases hc with ((((rfl | rfl) | rfl) | rfl) | rfl) | rfl <;>
        exact absurd h (by decide)
  · subst h
    decide

/-- Membership through `head?`. -/
theorem head?_mem_own (l : List Char) (c : Char) (h : l.head? = some c) :
    c ∈ l := by
  cases l with
  | nil => simp at h
  | cons a t =>
    rw [List.head?_cons] at h
    cases h
    exact List.mem_cons_self _ _

/-- The sanitizer output is at most 30 characters long, for every input. -/
theorem sanitize_identifier_length_le (s : String) :
    (sanitize_identifier s).length ≤ 30 := by
  unfold sanitize_identifier
  split
  · decide
  · split
    · decide
    · show (((pyStripUnd (collapseUnd (pySubNonAlnumToUnd
          (pyStripList pyIsWs s.data)))).map pyToUpperChar).take 30).length ≤ 30
      rw [List.length_take]
      exact Nat.min_le_left _ _

/-- Structural properties of `(L.map pyToUpperChar).take 30` inherited
from the stripped, collapsed list `L`. -/
theorem take30_map_props (L : List Char)
    (hne : L ≠ [])
    (hmem : ∀ c ∈ L, isAsciiAlnum c = true ∨ c = '_')
    (hch : L.Chain' (fun a b => ¬(a = '_' ∧ b = '_')))
    (hhead : ∀ c, L.head? = some c → c ≠ '_') :
    (L.map pyToUpperChar).take 30 ≠ [] ∧
    (∀ c ∈ (L.map pyToUpperChar).take 30, isAsciiAlnum c = true ∨ c = '_') ∧
    ((L.map pyToUpperChar).take 30).Chain' (fun a b => ¬(a = '_' ∧ b = '_')) ∧
    (∀ c, ((L.map pyToUpperChar).take 30).head? = some c → c ≠ '_') ∧
    ((L.map pyToUpperChar).take 30).map pyToUpperChar =
      (L.map pyToUpperChar).take 30 ∧
    ((L.map pyToUpperChar).take 30).length ≤ 30 := by
  refine ⟨?_, ?_, ?_, ?_, ?_, ?_⟩
  · have hLpos : 0 < L.length := List.length_pos.mpr hne
    have hzpos : 0 < ((L.map pyToUpperChar).take 30).length := by
      rw [List.length_take, List.length_map]
      exact Nat.lt_min.mpr ⟨by omega, hLpos⟩
    exact List.length_pos.mp hzpos
  · intro c hc
    have hc1 : c ∈ L.map pyToUpperChar := List.take_subset _ _ hc
    rcases List.mem_map.mp hc1 with ⟨c0, hc0, hup⟩
    rcases hmem c0 hc0 with ha | ha
    · left; rw [← hup]; exact pyToUpperChar_alnum c0 ha
    · right; rw [← hup, ha]; decide
  · have hch2 : (L.map pyToUpperChar).Chain'
        (fun a b => ¬(a = '_' ∧ b = '_')) := by
      rw [List.chain'_map]
      refine hch.imp ?_
      intro a b hab hx
      exact hab ⟨(pyToUpperChar_eq_underscore_iff a).mp hx.1,
        (pyToUpperChar_eq_underscore_iff b).mp hx.2⟩
    exact List.Chain'.infix hch2 ( List.IsPrefix.isInfix ( List.take_prefix 30 _))
  · cases L with
    | nil => exact absurd rfl hne
    | cons a t =>
      intro c hc
      have he : ((a :: t).map pyToUpperChar).take 30 =
          pyToUpperChar a :: (t.map pyToUpperChar).take 29 := rfl
      rw [he, List.head?_cons] at hc
      cases hc
      intro hc'
      exact hhead a rfl ((pyToUpperChar_eq_underscore_iff a).mp hc')
  · rw [← List.map_take, List.map_map]
    exact List.map_congr_left (fun c _ => pyToUpperChar_idem c)
  · rw [List.length_take]
    exact Nat.min_le_left _ _

/-- Every sanitizer output is either the placeholder "UNKNOWN" or a
nonempty string of at most 30 upper-case alphanumerics and single
underscores that does not start with an underscore. -/
theorem sanitize_identifier_output_props (s : String) :
    sanitize_identifier s = "UNKNOWN" ∨
    ((sanitize_identifier s).data ≠ [] ∧
     (∀ c ∈ (sanitize_identifier s).data, isAsciiAlnum c = true ∨ c = '_') ∧
     (sanitize_identifier s).data.Chain' (fun a b => ¬(a = '_' ∧ b = '_')) ∧
     (∀ c, (sanitize_identifier s).data.head? = some c → c ≠ '_') ∧
     ((sanitize_identifier s).data.map pyToUpperChar =
       (sanitize_identifier s).data) ∧
     (sanitize_identifier s).data.length ≤ 30) := by
  unfold sanitize_identifier
  split
  · left; rfl
  · split
    · left; rfl
    · right
      rename_i hs hs3
      have hmemL : ∀ c ∈ pyStripUnd (collapseUnd (pySubNonAlnumToUnd
          (pyStripList pyIsWs s.data))), isAsciiAlnum c = true ∨ c = '_' := by
        intro c hc
        have hc1 : c ∈ collapseUnd (pySubNonAlnumToUnd
            (pyStripList pyIsWs s.data)) :=
          mem_of_mem_pyStripList _ _ _ hc
        exact pySub_mem _ c (collapseUnd_subset _ hc1)
      have hchL : (pyStripUnd (collapseUnd (pySubNonAlnumToUnd
          (pyStripList pyIsWs s.data)))).Chain'
          (fun a b => ¬(a = '_' ∧ b = '_')) :=
        List.Chain'.infix (collapseUnd_chain' _) (pyStripList_contiguous _ _)
      have hheadL : ∀ c, (pyStripUnd (collapseUnd (pySubNonAlnumToUnd
          (pyStripList pyIsWs s.data)))).head? = some c → c ≠ '_' := by
        intro c hc
        have h0 : (fun c => decide (c = '_')) c = false :=
          head?_pyStripList_not _ _ c hc
        exact of_decide_eq_false h0
      exact take30_map_props _ hs3 hmemL hchL hheadL

/-- Already-sanitized nonempty identifier strings (alphanumerics and
single underscores, upper-case, not starting or ending with an
underscore, at most 30 characters) are fixed points of the sanitizer. -/
theorem sanitize_identifier_fixed (z : List Char)
    (hne : z ≠ [])
    (hmem : ∀ c ∈ z, isAsciiAlnum c = true ∨ c = '_')
    (hch : z.Chain' (fun a b => ¬(a = '_' ∧ b = '_')))
    (hhead : ∀ c, z.head? = some c → c ≠ '_')
    (hlast : ∀ c, z.getLast? = some c → c ≠ '_')
    (hup : z.map pyToUpperChar = z)
    (hlen : z.length ≤ 30) :
    sanitize_identifier ⟨z⟩ = ⟨z⟩ := by
  have hdata : (String.mk z).data = z := rfl
  have hzne : (String.mk z) ≠ "" := by
    intro hc
    apply hne
    have h2 : (String.mk z).data = ("" : String).data := by rw [hc]
    rw [hdata] at h2
    simpa using h2
  have e1 : pyStripList pyIsWs z = z :=
    pyStripList_eq_self_of_all _ z
      (fun c hc => not_ws_of_alnum_or_und c (hmem c hc))
  have e2 : pySubNonAlnumToUnd z = z := pySub_eq_self z hmem
  have e3 : collapseUnd z = z := collapseUnd_eq_self_of_chain' z hch
  have e4 : pyStripUnd z = z := by
    unfold pyStripUnd
    apply pyStripList_eq_self_of_ends
    · intro c hc
      exact decide_eq_false (hhead c hc)
    · intro c hc
      exact decide_eq_false (hlast c hc)
  unfold sanitize_identifier
  rw [if_neg hzne, hdata, e1, e2, e3, e4, if_neg hne, hup,
    List.take_of_length_le hlen]

/-- C6 (corrected): the sanitizer is a total function whose output length
is at most 30 for every input, and applying it twice equals applying it
once for every input whose sanitized form does not end in an underscore.
(Full idempotence fails: truncation to 30 characters can leave a trailing
underscore, which the second application strips — see the
counterexample.) -/
theorem sanitize_identifier_bounded_and_cond_idempotent (s : String) :
    (sanitize_identifier s).length ≤ 30 ∧
    ((sanitize_identifier s).data.getLast? ≠ some '_' →
      sanitize_identifier (sanitize_identifier s) = sanitize_identifier s) := by
  refine ⟨sanitize_identifier_length_le s, ?_⟩
  intro hlast
  rcases sanitize_identifier_output_props s with h | ⟨hne, hmem, hch, hhead, hup, hlen⟩
  · rw [h]; decide
  · have hy : String.mk (sanitize_identifier s).data = sanitize_identifier s := rfl
    calc sanitize_identifier (sanitize_identifier s)
        = sanitize_identifier (String.mk (sanitize_identifier s).data) := by
          rw [hy]
      _ = String.mk (sanitize_identifier s).data :=
          sanitize_identifier_fixed _ hne hmem hch hhead
            (fun c hc hc' => hlast (hc' ▸ hc)) hup hlen
      _ = sanitize_identifier s := hy

/-- C6 counterexample: sanitizing "A B C D E F G H I J K L M N O P"
yields a 30-character identifier ending in an underscore (the truncation
cut through a separator); a second application strips that underscore, so
`sanitize(sanitize(x)) ≠ sanitize(x)` — the sanitizer is NOT idempotent on
all inputs. -/
theorem sanitize_identifier_not_idempotent :
    sanitize_identifier (sanitize_identifier "A B C D E F G H I J K L M N O P") ≠
      sanitize_identifier "A B C D E F G H I J K L M N O P" := by
  decide

/-- C6 witness: on "hello world!" the bound holds and the sanitizer is
idempotent (its output "HELLO_WORLD" does not end in an underscore). -/
theorem sanitize_identifier_cond_idempotent_witness :
    (sanitize_identifier "hello world!").length ≤ 30 ∧
    ((sanitize_identifier "hello world!").data.getLast? ≠ some '_' ∧
      sanitize_identifier (sanitize_identifier "hello world!") =
        sanitize_identifier "hello world!") :=
  ⟨(sanitize_identifier_bounded_and_cond_idempotent "hello world!").1,
   by decide,
   (sanitize_identifier_bounded_and_cond_idempotent "hello world!").2 (by decide)⟩

end STE
